import Mathlib

/-!
Verification of the live build-progress notifier implemented in
`tg_notify.py` and `tg_timer_service.py`.

Modelling conventions.  Python strings are modelled as `List Char`.
Python integers are arbitrary precision, so `Nat`/`Int` model them
exactly.  Fallible operations return `Option` (`none` marks the branch
where CPython raises).  Stateful code — network requests, the persisted
message-id file, printed log lines, the clock — is modelled by explicit
passing of a `World` record defined further below.  Timestamps are
modelled at whole-second resolution (the scripts only ever use
`int(<timedelta>.total_seconds())`, sub-second truncation of the float
value is outside the model).
-/

/-! ### Python-style decimal rendering and parsing -/

/-- Little-endian decimal digits of `n`, with explicit fuel so the
function is structurally recursive (`fuel ≥ n` is enough fuel).  This is
the digit extraction underlying Python `str(n)` for a natural number. -/
def digitsRevAux : Nat → Nat → List Nat
  | 0, _ => []
  | _ + 1, 0 => []
  | fuel + 1, n + 1 => (n + 1) % 10 :: digitsRevAux fuel ((n + 1) / 10)

/-- Little-endian decimal digits of `n`. -/
def digitsRev (n : Nat) : List Nat := digitsRevAux n n

/-- Decimal rendering of a natural number, as Python `str` produces it. -/
def pyStrNat (n : Nat) : List Char :=
  if n = 0 then ['0'] else (digitsRev n).reverse.map Nat.digitChar

/-- Decimal rendering of an integer, as Python `str` produces it. -/
def pyStrInt : Int → List Char
  | Int.ofNat n => pyStrNat n
  | Int.negSucc n => '-' :: pyStrNat (n + 1)

/-- Numeric value of an ASCII digit character. -/
def digitVal (c : Char) : Nat := c.toNat - 48

/-- Strip leading and trailing whitespace, as Python `str.strip()`. -/
def stripChars (l : List Char) : List Char :=
  ((l.dropWhile Char.isWhitespace).reverse.dropWhile Char.isWhitespace).reverse

/-- Body of a Python integer literal after the optional sign: a non-empty
run of ASCII digits in which single underscores may separate two digits
(the CPython `int(str)` grouping rule).  Returns the digits with the
underscores removed, or `none` where CPython raises `ValueError`. -/
def digitsBody : List Char → Option (List Char)
  | [] => some []
  | c :: rest =>
    if c = '_' then
      match rest with
      | [] => none
      | c2 :: rest2 =>
        if c2.isDigit then (digitsBody rest2).map (fun l => c2 :: l) else none
    else if c.isDigit then (digitsBody rest).map (fun l => c :: l) else none

/-- Parse a non-empty digit run into its value (Python `int`, after the
sign has been handled). -/
def parseDigitRun (l : List Char) : Option Nat :=
  match l with
  | [] => none
  | c :: _ =>
    if c.isDigit then
      (digitsBody l).map (fun ds => ds.foldl (fun a d => a * 10 + digitVal d) 0)
    else none

/-- Sign handling of Python `int(s)` after stripping: an optional sign
followed by a digit run. -/
def pyIntSigned : List Char → Option Int
  | [] => none
  | c :: rest =>
    if c = '-' then (parseDigitRun rest).map (fun n => -(n : Int))
    else if c = '+' then (parseDigitRun rest).map (fun n => (n : Int))
    else (parseDigitRun (c :: rest)).map (fun n => (n : Int))

/-- Python `int(s)` restricted to ASCII decimal notation: strip the
whitespace, accept an optional sign followed by a digit run.  Returns
`none` where CPython raises `ValueError`. -/
def pyInt (l : List Char) : Option Int := pyIntSigned (stripChars l)

/-! ### The message-handle store -/

/-- Embedding of `save_message_id` (`tg_notify.py`, lines 295-300), at the
level of the file content: the string form of the value is written;
a failing write (the `except` branch) leaves the previous content and is
swallowed — the function always returns to its caller. -/
def save_message_id (v : List Char) (file : Option (List Char)) (writeOk : Bool) :
    Option (List Char) :=
  if writeOk then some v else file

/-- Embedding of `load_message_id` (`tg_notify.py` lines 302-307; the
`tg_timer_service.py` variant at lines 167-172 is identical at content
level): read the file, strip, parse as a decimal integer
(`int(f.read().strip())`); a missing file or a failed parse is caught
and yields `None`. -/
def load_message_id : Option (List Char) → Option Int
  | none => none
  | some content => pyInt (stripChars content)

/-- Embedding of the store key of `tg_notify.py` line 29:
`LIVE_MESSAGE_ID_FILE = f"/tmp/live_message_{ROM_TYPE}_{KERNEL_BRANCH}.txt"`.
The two environment values are interpolated verbatim. -/
def LIVE_MESSAGE_ID_FILE (romType branch : List Char) : List Char :=
  "/tmp/live_message_".toList ++ romType ++ '_' :: branch ++ ".txt".toList

/-- The `tg_timer_service.py` store path (lines 160-172): one fixed file,
with no dependence on the build identity. -/
def TIMER_MSG_ID_FILE : List Char := "/tmp/telegram_msg_id.txt".toList

/-! ### Markdown escaping -/

/-- Python `text.replace(c, "\\" + c)` for a single character `c`: every
occurrence of `c` gains a backslash prefix. -/
def replaceChar (l : List Char) (c : Char) : List Char :=
  l.flatMap (fun x => if x = c then ['\\', c] else [x])

/-- The characters escaped by the "text" policy (`tg_notify.py` line 45). -/
def escape_chars_text : List Char := ['*', '`', '[', ']', '(', ')']

/-- Embedding of `escape_markdown_text` (`tg_notify.py` lines 37-50):
sequentially replace each character of `escape_chars_text` by its
backslashed form; a falsy (empty) text is returned unchanged. -/
def escape_markdown_text (text : List Char) : List Char :=
  if text = [] then text else escape_chars_text.foldl replaceChar text

/-- The characters escaped by the strict policy (`tg_timer_service.py`
line 41): the full MarkdownV2 reserved set.  The two brace characters
are written by code point. -/
def escape_chars_full : List Char :=
  ['*', '_', '`', '[', ']', '(', ')', '~', '>', '#', '+', '-', '=', '|',
   Char.ofNat 123, Char.ofNat 125, '.', '!']

/-- Embedding of `escape_markdown` (`tg_timer_service.py` lines 38-44). -/
def escape_markdown (text : List Char) : List Char :=
  if text = [] then text else escape_chars_full.foldl replaceChar text

/-- One-pass specification of escaping: every occurrence of a character
of `chars` is backslash-prefixed and every other character is kept
unchanged. -/
def escapeSpec (chars text : List Char) : List Char :=
  text.flatMap (fun x => if x ∈ chars then ['\\', x] else [x])

/-! ### The progress bar -/

/-- A Python scalar as passed to `progress_bar`: the callers pass either
an integer or a decimal string. -/
inductive PyScalar where
  | int (n : Int)
  | str (s : List Char)
deriving DecidableEq

/-- Python `float(percent)` restricted to integral values: an `int` is
exact, a string is parsed as a decimal integer (the callers only ever
pass decimal-integer strings, so the fractional and exponent forms of
`float` literals are outside the model).  `none` models `ValueError`. -/
def pyNum : PyScalar → Option Int
  | PyScalar.int n => some n
  | PyScalar.str s => pyInt s

/-- Python string interpolation `f"{percent}"` of the scalar. -/
def pyDisplay : PyScalar → List Char
  | PyScalar.int n => pyStrInt n
  | PyScalar.str s => s

namespace TgNotify

/-- Embedding of `progress_bar` (`tg_notify.py` lines 59-62):
`filled = int(float(percent) / 5)`, `empty = 20 - filled`, rendered as
`[` bar `] (` percent `%)`.  `Int.tdiv` is the truncation performed by
Python `int(...)`; `Int.toNat` models Python's string repetition
operator, which produces the empty string on a negative count. -/
def progress_bar (percent : PyScalar) : Option (List Char) :=
  match pyNum percent with
  | none => none
  | some v =>
    let filled : Int := Int.tdiv v 5
    let empty : Int := 20 - filled
    some ('[' :: (List.replicate filled.toNat '●' ++ List.replicate empty.toNat '○')
      ++ ']' :: ' ' :: '(' :: (pyDisplay percent ++ ['%', ')']))

end TgNotify

namespace TgTimer

/-- Embedding of `progress_bar` (`tg_timer_service.py` lines 85-88): the
same computation, rendered as `[` bar `] ` percent `%`. -/
def progress_bar (percent : PyScalar) : Option (List Char) :=
  match pyNum percent with
  | none => none
  | some v =>
    let filled : Int := Int.tdiv v 5
    let empty : Int := 20 - filled
    some ('[' :: (List.replicate filled.toNat '●' ++ List.replicate empty.toNat '○')
      ++ ']' :: ' ' :: (pyDisplay percent ++ ['%']))

end TgTimer

/-! ### Requests, responses, configuration, and the world state -/

/-- A Telegram HTTP response, as far as the scripts inspect it:
`status_code`, the response text (only searched for the parse-error
signature), and `result.message_id` of the decoded JSON when present. -/
structure TgResponse where
  status : Nat
  body : List Char
  messageId : Option Int
deriving DecidableEq

/-- A GitHub API response, as far as the scripts inspect it: the status
code and the parsed `created_at` instant (epoch seconds); `none` covers
both a missing field and an unparsable timestamp. -/
structure GhResponse where
  status : Nat
  createdAt : Option Int
deriving DecidableEq

/-- One outgoing network request, with the payload fields the scripts
put in it. -/
inductive Request where
  | sendMessage (chatId text : List Char) (parseMode : Option (List Char))
  | editMessageText (chatId : List Char) (messageId : Int) (text : List Char)
      (parseMode : Option (List Char))
  | deleteMessage (chatId : List Char) (messageId : Int)
  | getWorkflowRun (runId : List Char)
  | sendDocument (chatId caption : List Char)
deriving DecidableEq

/-- A build-metadata request (the GitHub workflow-run lookup) is not a
chat operation; every Telegram request is. -/
def isChatRequest : Request → Bool
  | Request.getWorkflowRun _ => false
  | _ => true

/-- The environment-variable configuration read at the top of the
scripts.  Values that the scripts test for truthiness are `Option`;
`zipExists` and `zipSize` stand for `os.path.exists(ZIP_PATH)` and
`os.path.getsize(ZIP_PATH)`. -/
structure Config where
  telegramToken : Option (List Char)
  telegramChatId : Option (List Char)
  githubToken : Option (List Char)
  githubRunId : Option (List Char)
  githubRepo : List Char
  githubActor : List Char
  githubWorkflow : List Char
  kernelBranch : List Char
  kernelSourceUrl : List Char
  romType : List Char
  buildStatus : List Char
  currentStage : List Char
  progressPercent : List Char
  zipPath : List Char
  zipExists : Bool
  zipSize : Nat
  kpm : Bool
  clang : List Char
deriving DecidableEq

/-- The mutable environment of one run: the queued Telegram and GitHub
responses (`none` models a raised transport exception), the log of
outgoing requests, the printed lines, the clock, the message-id file
content, and whether writes to it succeed. -/
structure World where
  tgResponses : List (Option TgResponse)
  ghResponses : List (Option GhResponse)
  requests : List Request
  logLines : List (List Char)
  now : Int
  file : Option (List Char)
  writeOk : Bool
deriving DecidableEq

/-- Append a printed line. -/
def World.log (w : World) (line : List Char) : World :=
  { w with logLines := w.logLines ++ [line] }

/-- Issue a Telegram request: the request is recorded and the next queued
response is consumed (an exhausted queue behaves as an exception). -/
def World.postTg (w : World) (req : Request) : Option TgResponse × World :=
  match w.tgResponses with
  | [] => (none, { w with requests := w.requests ++ [req] })
  | r :: rest => (r, { w with tgResponses := rest, requests := w.requests ++ [req] })

/-- Issue a GitHub request, analogously. -/
def World.getGh (w : World) (req : Request) : Option GhResponse × World :=
  match w.ghResponses with
  | [] => (none, { w with requests := w.requests ++ [req] })
  | r :: rest => (r, { w with ghResponses := rest, requests := w.requests ++ [req] })

/-- Python truthiness of an optional string: `None` and `""` are falsy. -/
def truthy : Option (List Char) → Bool
  | none => false
  | some s => !s.isEmpty

/-- The chat id as interpolated into payloads. -/
def chatOf (c : Config) : List Char := c.telegramChatId.getD []

/-- The run id as interpolated into URLs and messages. -/
def runIdOf (c : Config) : List Char := c.githubRunId.getD []

/-- The default `parse_mode` of every primary request. -/
def markdownMode : List Char := "Markdown".toList

/-- The apostrophe character, written by code point. -/
def apos : Char := Char.ofNat 39

/-- The markup-rejection signature the scripts search the response text
for. -/
def parseErrSig : List Char := "can".toList ++ apos :: "t parse entities".toList

/-- The newline character. -/
def nl : Char := Char.ofNat 10

/-- Python substring containment `pat in s`. -/
def containsSub (pat : List Char) : List Char → Bool
  | [] => pat.isEmpty
  | c :: rest => List.isPrefixOf pat (c :: rest) || containsSub pat rest

/-- Python `str.split(sep)` for a one-character separator. -/
def splitOnChar (sep : Char) : List Char → List (List Char)
  | [] => [[]]
  | c :: rest =>
    if c = sep then [] :: splitOnChar sep rest
    else
      match splitOnChar sep rest with
      | [] => [[c]]
      | g :: gs => (c :: g) :: gs

/-- Python `sep.join(groups)` for a one-character separator. -/
def joinWithChar (sep : Char) : List (List Char) → List Char
  | [] => []
  | [g] => g
  | g :: gs => g ++ sep :: joinWithChar sep gs

/-- Python `str.removesuffix`. -/
def removeSuffix (l suf : List Char) : List Char :=
  if suf.isSuffixOf l then l.take (l.length - suf.length) else l

/-- Python `os.path.basename` (POSIX): the part after the last slash. -/
def basename (p : List Char) : List Char := ((splitOnChar '/' p).getLast?).getD []

/-- Python `f"{n:02d}"` zero-padding for the values used here. -/
def pad2 (i : Int) : List Char :=
  if (pyStrInt i).length < 2 then '0' :: pyStrInt i else pyStrInt i

/-- Python `str.replace(pat, rep)` for a non-empty pattern (every
occurrence, scanned left to right, non-overlapping). -/
def replaceSub (pat rep : List Char) (l : List Char) : List Char :=
  match l with
  | [] => []
  | c :: rest =>
    if pat.isPrefixOf (c :: rest) ∧ pat ≠ [] then
      rep ++ replaceSub pat rep (List.drop (pat.length - 1) rest)
    else c :: replaceSub pat rep rest
termination_by l.length
decreasing_by
  · simp only [List.length_cons, List.length_drop]
    omega
  · simp only [List.length_cons]
    omega

/-- One-decimal rendering used by `sizeof_fmt`; the value is supplied
multiplied by ten.  Truncation stands in for the round-to-nearest of
`f"{num:.1f}"`, whose binary floating point is outside the model. -/
def fmt1dec (n10 : Nat) : List Char := pyStrNat (n10 / 10) ++ '.' :: pyStrNat (n10 % 10)

/-- Unit-escalation loop of `sizeof_fmt`: `scale` is the power of 1024
already divided out. -/
def sizeofAux : List (List Char) → Nat → Nat → List Char
  | [], num, scale => fmt1dec (num * 10 / scale) ++ "PB".toList
  | u :: us, num, scale =>
    if num < 1024 * scale then fmt1dec (num * 10 / scale) ++ u ++ "B".toList
    else sizeofAux us num (scale * 1024)

/-- Embedding of `sizeof_fmt` (`tg_notify.py` lines 52-57). -/
def sizeof_fmt (num : Nat) : List Char :=
  sizeofAux [[], ['K'], ['M'], ['G'], ['T']] num 1

namespace TgNotify

/-- Printed when `main` finds the credentials absent. -/
def logMainNoCreds : List Char :=
  "Telegram credentials not set, skipping notification".toList

/-- Printed when `send_message` finds the credentials absent. -/
def logSendNoCreds : List Char := "Telegram credentials not set, skipping message".toList

/-- Printed when `edit_message` finds the credentials absent. -/
def logEditNoCreds : List Char := "Telegram credentials not set, skipping edit".toList

/-- Printed when `delete_message` finds the credentials absent. -/
def logDeleteNoCreds : List Char := "Telegram credentials not set, skipping delete".toList

/-- Printed when the GitHub credentials are absent. -/
def logGhNoCreds : List Char := "GitHub token or run ID not available".toList

/-- Printed when the workflow-run lookup fails or lacks the field. -/
def logGhFailed : List Char := "Failed to get workflow start time".toList

/-- Printed when the workflow-run lookup raises. -/
def logGhError : List Char := "Error getting workflow start time".toList

/-- Printed on a non-success send response. -/
def logSendFailed : List Char := "Failed to send message".toList

/-- Printed when a send raises. -/
def logSendError : List Char := "Error sending message".toList

/-- Printed before the markup-neutralized retry. -/
def logRetry : List Char := "Retrying with safer formatting...".toList

/-- Printed on a non-success edit response. -/
def logEditFailed : List Char := "Failed to edit message".toList

/-- Printed when an edit raises. -/
def logEditError : List Char := "Error editing message".toList

/-- Printed when a delete raises. -/
def logDeleteError : List Char := "Error deleting message".toList

/-- Printed when writing the message-id file raises. -/
def logSaveError : List Char := "Error saving message ID".toList

/-- Printed when the update phase falls back to a fresh send. -/
def logUpdateFallback : List Char := "Failed to update message, sending new one".toList

/-- Printed when the upload is given a missing file. -/
def logFileNotFound : List Char := "File not found".toList

/-- Printed when the document upload raises. -/
def logUploadError : List Char := "Error uploading file".toList

/-- Printed when the end phase skips the upload. -/
def logNotUploading : List Char := "Not uploading file".toList

/-- Embedding of `get_workflow_start_time` (`tg_notify.py` lines 64-90). -/
def get_workflow_start_time (c : Config) (w : World) : Option Int × World :=
  if !(truthy c.githubToken && truthy c.githubRunId) then
    (none, w.log logGhNoCreds)
  else
    match w.getGh (Request.getWorkflowRun (runIdOf c)) with
    | (none, w) => (none, w.log logGhError)
    | (some r, w) =>
      if r.status = 200 then
        match r.createdAt with
        | some t => (some t, w)
        | none => (none, w.log logGhFailed)
      else (none, w.log logGhFailed)

/-- Embedding of `get_elapsed_time` (`tg_notify.py` lines 92-116):
`now − start` decomposed into hours, minutes and seconds with Python
floor division and modulo (`Int` `/` and `%`, which for these positive
divisors agree with Python's floor semantics); the `hrs` group is
printed only when `hours > 0`, and the `mins` group only when `hours > 0`
or `minutes > 0`. -/
def get_elapsed_time (c : Config) (w : World) : List Char × World :=
  match get_workflow_start_time c w with
  | (none, w) => ("0 mins 0 secs".toList, w)
  | (some start, w) =>
    let total : Int := w.now - start
    let hours : Int := total / 3600
    let minutes : Int := total % 3600 / 60
    let seconds : Int := total % 60
    if 0 < hours then
      (pyStrInt hours ++ " hrs ".toList ++ pyStrInt minutes ++ " mins ".toList
        ++ pyStrInt seconds ++ " secs".toList, w)
    else if 0 < minutes then
      (pyStrInt minutes ++ " mins ".toList ++ pyStrInt seconds ++ " secs".toList, w)
    else
      (pyStrInt seconds ++ " secs".toList, w)

/-- Embedding of `get_live_elapsed_time` (`tg_notify.py` lines 118-141). -/
def get_live_elapsed_time (c : Config) (w : World) : List Char × World :=
  match get_workflow_start_time c w with
  | (none, w) => ("⏱️ 0s".toList, w)
  | (some start, w) =>
    let total : Int := w.now - start
    let hours : Int := total / 3600
    let minutes : Int := total % 3600 / 60
    let seconds : Int := total % 60
    if 0 < hours then
      ("⏱️ ".toList ++ pad2 hours ++ ':' :: pad2 minutes ++ ':' :: pad2 seconds, w)
    else
      ("⏱️ ".toList ++ pad2 minutes ++ ':' :: pad2 seconds, w)

/-- The regex `\[([^\]]+)\]\([^)]+\)` attempted at the head of the list:
a bracketed non-empty run without `]`, immediately followed by a
parenthesized non-empty run without `)`; returns the bracketed group. -/
def matchLinkAt : List Char → Option (List Char)
  | '[' :: rest =>
    let inner := rest.takeWhile (fun c => c ≠ ']')
    let after := rest.dropWhile (fun c => c ≠ ']')
    if inner.isEmpty then none
    else
      match after with
      | ']' :: '(' :: rest2 =>
        let url := rest2.takeWhile (fun c => c ≠ ')')
        let after2 := rest2.dropWhile (fun c => c ≠ ')')
        if url.isEmpty then none
        else
          match after2 with
          | ')' :: _ => some inner
          | _ => none
      | _ => none
  | _ => none

/-- `re.search` of the link pattern: the leftmost match wins. -/
def reSearchLink : List Char → Option (List Char)
  | [] => none
  | c :: rest =>
    match matchLinkAt (c :: rest) with
    | some inner => some inner
    | none => reSearchLink rest

/-- One line of the markup-neutralizing fallback of `send_message`
(`tg_notify.py` lines 230-243): a line that starts and ends with `*`
after stripping loses its asterisks; a line containing a Markdown link
is replaced by the link text; anything else is kept. -/
def simplify_line (line : List Char) : List Char :=
  let s := stripChars line
  if s.head? = some '*' ∧ s.getLast? = some '*' then
    stripChars (line.filter (fun c => c ≠ '*'))
  else if '[' ∈ line ∧ containsSub "](".toList line ∧ ')' ∈ line then
    match reSearchLink line with
    | some inner => inner
    | none => line
  else line

/-- The markup-neutralizing fallback applied line by line. -/
def simplify_text (text : List Char) : List Char :=
  joinWithChar nl ((splitOnChar nl text).map simplify_line)

/-- Embedding of `send_message` (`tg_notify.py` lines 209-255): guard on
credentials; post; on success return the message id; on a failure whose
body carries the parse-error signature, retry exactly once with the
simplified text and `parse_mode` removed; every other failure, and a
failed retry, yields `None`. -/
def send_message (c : Config) (text : List Char) (parseMode : Option (List Char))
    (w : World) : Option Int × World :=
  if !(truthy c.telegramToken && truthy c.telegramChatId) then
    (none, w.log logSendNoCreds)
  else
    match w.postTg (Request.sendMessage (chatOf c) text parseMode) with
    | (none, w) => (none, w.log logSendError)
    | (some r, w) =>
      if r.status = 200 then (r.messageId, w)
      else
        let w := w.log logSendFailed
        if containsSub parseErrSig r.body then
          let w := w.log logRetry
          match w.postTg (Request.sendMessage (chatOf c) (simplify_text text) none) with
          | (none, w) => (none, w.log logSendError)
          | (some r2, w) => if r2.status = 200 then (r2.messageId, w) else (none, w)
        else (none, w)

/-- Embedding of `edit_message` (`tg_notify.py` lines 257-279): one
request; `True` exactly on status 200; no retry of any kind. -/
def edit_message (c : Config) (messageId : Int) (text : List Char)
    (parseMode : Option (List Char)) (w : World) : Bool × World :=
  if !(truthy c.telegramToken && truthy c.telegramChatId) then
    (false, w.log logEditNoCreds)
  else
    match w.postTg (Request.editMessageText (chatOf c) messageId text parseMode) with
    | (none, w) => (false, w.log logEditError)
    | (some r, w) =>
      if r.status = 200 then (true, w) else (false, w.log logEditFailed)

/-- Embedding of `delete_message` (`tg_notify.py` lines 281-293):
best-effort, the response is ignored. -/
def delete_message (c : Config) (messageId : Int) (w : World) : World :=
  if !(truthy c.telegramToken && truthy c.telegramChatId) then
    w.log logDeleteNoCreds
  else
    match w.postTg (Request.deleteMessage (chatOf c) messageId) with
    | (none, w) => w.log logDeleteError
    | (some _, w) => w

/-- `save_message_id` lifted to the world: writes `str(message_id)` to
the file, logging instead when the write fails. -/
def saveLiveMessageId (mid : Int) (w : World) : World :=
  if w.writeOk then { w with file := save_message_id (pyStrInt mid) w.file true }
  else w.log logSaveError

end TgNotify

namespace TgNotify

/-- Embedding of `build_live_message` (`tg_notify.py` lines 143-174).
The elapsed time is computed first (possibly issuing the GitHub lookup),
then the message text is assembled; an unparsable progress percent makes
the f-string raise, modelled by `none`. -/
def build_live_message (c : Config) (w : World) : Option (List Char) × World :=
  let title := "🚀 Live Build Progress - ".toList ++ c.romType ++ " (".toList
    ++ c.kernelBranch ++ [')']
  let repoUrl := "https://github.com/".toList ++ c.githubRepo
  let branchUrl := removeSuffix c.kernelSourceUrl ".git".toList ++ "/tree/".toList
    ++ c.kernelBranch
  let kpmStatus := if c.kpm then "Enabled".toList else "Disabled".toList
  match get_live_elapsed_time c w with
  | (elapsed, w) =>
    match progress_bar (PyScalar.str c.progressPercent) with
    | none => (none, w)
    | some bar =>
      (some ('*' :: title ++ '*' :: nl :: nl ::
        "*Workflow:* ".toList ++ c.githubWorkflow ++ nl ::
        "*Initiated By:* ".toList ++ c.githubActor ++ nl ::
        "*Build ID:* `".toList ++ runIdOf c ++ '`' :: nl ::
        "*Repository:* [".toList ++ escape_markdown_text c.githubRepo ++ "](".toList
          ++ repoUrl ++ ')' :: nl ::
        "*Branch:* [".toList ++ c.kernelBranch ++ "](".toList ++ branchUrl ++ ')' :: nl ::
        "*Kernel Source:* [Link](".toList ++ c.kernelSourceUrl ++ ')' :: nl ::
        "*Clang:* `".toList ++ escape_markdown_text c.clang ++ '`' :: nl ::
        "*KPM:* ".toList ++ kpmStatus ++ nl :: nl ::
        "*Progress:* ".toList ++ bar ++ nl ::
        "*Stage:* `".toList ++ c.currentStage ++ '`' :: nl ::
        "*Elapsed Time:* ".toList ++ elapsed ++ [nl]), w)

/-- Embedding of `build_final_message` (`tg_notify.py` lines 176-207). -/
def build_final_message (c : Config) (status : List Char) (w : World) :
    List Char × World :=
  let titleIcon := if status = "success".toList then "✅".toList else "❌".toList
  let statusText := if status = "success".toList then "Success".toList else "Failed".toList
  let title := titleIcon ++ " Build ".toList ++ statusText ++ " - ".toList ++ c.romType
    ++ " (".toList ++ c.kernelBranch ++ [')']
  let repoUrl := "https://github.com/".toList ++ c.githubRepo
  let branchUrl := removeSuffix c.kernelSourceUrl ".git".toList ++ "/tree/".toList
    ++ c.kernelBranch
  let kpmStatus := if c.kpm then "Enabled".toList else "Disabled".toList
  match get_elapsed_time c w with
  | (elapsed, w) =>
    ('*' :: title ++ '*' :: nl :: nl ::
      "*Workflow:* ".toList ++ c.githubWorkflow ++ nl ::
      "*Initiated By:* ".toList ++ c.githubActor ++ nl ::
      "*Build ID:* `".toList ++ runIdOf c ++ '`' :: nl ::
      "*Repository:* [".toList ++ escape_markdown_text c.githubRepo ++ "](".toList
        ++ repoUrl ++ ')' :: nl ::
      "*Branch:* [".toList ++ c.kernelBranch ++ "](".toList ++ branchUrl ++ ')' :: nl ::
      "*Kernel Source:* [Link](".toList ++ c.kernelSourceUrl ++ ')' :: nl ::
      "*Clang:* `".toList ++ escape_markdown_text c.clang ++ '`' :: nl ::
      "*KPM:* ".toList ++ kpmStatus ++ nl :: nl ::
      "*Total Build Time:* ".toList ++ elapsed ++ [nl], w)

/-- The status text of the upload message. -/
def uploadingMarker : List Char := "Uploading...".toList

/-- The simulated-progress edits of `upload_file_with_progress`
(`for progress in range(0, 101, 10)`). -/
def uploadProgressEdits (c : Config) (mid : Int) (uploadMsg : List Char) :
    List Nat → World → World
  | [], w => w
  | p :: ps, w =>
    let txt := uploadMsg ++ nl :: "*Progress:* ".toList
      ++ (progress_bar (PyScalar.str (pyStrNat p))).getD []
    match edit_message c mid txt (some markdownMode) w with
    | (_, w) => uploadProgressEdits c mid uploadMsg ps w

/-- Embedding of `upload_file_with_progress` (`tg_notify.py` lines
309-358): status message, simulated progress edits, the document post,
then a final status edit (and a delete of the status message on
success). -/
def upload_file_with_progress (c : Config) (w : World) : Bool × World :=
  if !c.zipExists then (false, w.log logFileNotFound)
  else
    let filename := basename c.zipPath
    let uploadMsg := "📦 *Uploading File*".toList ++ nl ::
      "*Name:* `".toList ++ filename ++ '`' :: nl ::
      "*Size:* ".toList ++ sizeof_fmt c.zipSize ++ nl ::
      "*Status:* ".toList ++ uploadingMarker ++ [nl]
    match send_message c uploadMsg (some markdownMode) w with
    | (none, w) => (false, w)
    | (some mid, w) =>
      let w := uploadProgressEdits c mid uploadMsg
        [0, 10, 20, 30, 40, 50, 60, 70, 80, 90, 100] w
      match w.postTg (Request.sendDocument (chatOf c) ("📦 ".toList ++ filename)) with
      | (none, w) =>
        let w := w.log logUploadError
        match edit_message c mid
            (replaceSub uploadingMarker "❌ Upload Error".toList uploadMsg)
            (some markdownMode) w with
        | (_, w) => (false, w)
      | (some r, w) =>
        if r.status = 200 then
          match edit_message c mid
              (replaceSub uploadingMarker "✅ Uploaded".toList uploadMsg)
              (some markdownMode) w with
          | (_, w) => (true, delete_message c mid w)
        else
          match edit_message c mid
              (replaceSub uploadingMarker "❌ Upload Failed".toList uploadMsg)
              (some markdownMode) w with
          | (_, w) => (false, w)

/-- The `update` branch of `main` (`tg_notify.py` lines 383-398): load
the stored handle; when present, render and edit; when the edit fails,
or no handle exists, render and send, saving the new handle when the
send succeeds. -/
def mainUpdate (c : Config) (w : World) : Option World :=
  match load_message_id w.file with
  | some mid =>
    match build_live_message c w with
    | (none, _) => none
    | (some msg, w) =>
      match edit_message c mid msg (some markdownMode) w with
      | (true, w) => some w
      | (false, w) =>
        let w := w.log logUpdateFallback
        match send_message c msg (some markdownMode) w with
        | (some nid, w) => some (saveLiveMessageId nid w)
        | (none, w) => some w
  | none =>
    match build_live_message c w with
    | (none, _) => none
    | (some msg, w) =>
      match send_message c msg (some markdownMode) w with
      | (some nid, w) => some (saveLiveMessageId nid w)
      | (none, w) => some w

/-- The `end` branch of `main` (`tg_notify.py` lines 400-415). -/
def mainEnd (c : Config) (w : World) : Option World :=
  let w := match load_message_id w.file with
    | some mid => delete_message c mid w
    | none => w
  let status := if c.buildStatus = "success".toList then "success".toList
    else "failure".toList
  match build_final_message c status w with
  | (msg, w) =>
    match send_message c msg (some markdownMode) w with
    | (_, w) =>
      if c.buildStatus = "success".toList ∧ c.zipPath ≠ [] ∧ c.zipExists then
        match upload_file_with_progress c w with
        | (_, w) => some w
      else some (w.log logNotUploading)

/-- Embedding of `main` (`tg_notify.py` lines 360-418): the credential
guard precedes everything, then the three phases dispatch on
`TELEGRAM_ACTION`; `none` models an uncaught exception.  The diagnostic
prints of the phase parameters are omitted from the log model. -/
def tgMain (c : Config) (action : List Char) (w : World) : Option World :=
  if !(truthy c.telegramToken && truthy c.telegramChatId) then
    some (w.log logMainNoCreds)
  else if action = "start".toList then
    match build_live_message c w with
    | (none, _) => none
    | (some msg, w) =>
      match send_message c msg (some markdownMode) w with
      | (some mid, w) => some (saveLiveMessageId mid w)
      | (none, w) => some w
  else if action = "update".toList then mainUpdate c w
  else if action = "end".toList then mainEnd c w
  else some w

end TgNotify

namespace TgTimer

/-- Printed when the timer-service `send_message` finds the credentials
absent. -/
def logNoCreds : List Char := "Telegram credentials not available".toList

/-- Printed when a timer-service send raises. -/
def logSendError : List Char := "Error sending message".toList

/-- Printed when the workflow-run lookup raises. -/
def logGhError : List Char := "Error getting start time".toList

/-- Printed when an iteration of the worker raises. -/
def logWorkerError : List Char := "Error in timer worker".toList

/-- Printed when the worker cannot recreate the message. -/
def logRecreateFailed : List Char := "Failed to recreate message".toList

/-- Printed after the final summary is sent. -/
def logFinalSent : List Char := "Final message sent".toList

/-- Embedding of `get_workflow_start_time` (`tg_timer_service.py` lines
46-65): like the notifier variant but silent except on a raised
request. -/
def get_workflow_start_time (c : Config) (w : World) : Option Int × World :=
  if !(truthy c.githubToken && truthy c.githubRunId) then (none, w)
  else
    match w.getGh (Request.getWorkflowRun (runIdOf c)) with
    | (none, w) => (none, w.log logGhError)
    | (some r, w) =>
      if r.status = 200 then
        match r.createdAt with
        | some t => (some t, w)
        | none => (none, w)
      else (none, w)

/-- Embedding of `get_elapsed_time` (`tg_timer_service.py` lines 67-83):
a pure function of the start time and the clock, rendered `HH:MM:SS`
zero-padded; an unknown start renders the fixed placeholder. -/
def get_elapsed_time (startTime : Option Int) (now : Int) : List Char :=
  match startTime with
  | none => "00:00:00".toList
  | some t =>
    let total : Int := now - t
    let hours : Int := total / 3600
    let minutes : Int := total % 3600 / 60
    let seconds : Int := total % 60
    pad2 hours ++ ':' :: pad2 minutes ++ ':' :: pad2 seconds

/-- Embedding of `build_message` (`tg_timer_service.py` lines 90-107). -/
def build_message (c : Config) (w : World) : Option (List Char) × World :=
  match get_workflow_start_time c w with
  | (start, w) =>
    let elapsed := get_elapsed_time start w.now
    let title := "🚀 Live Build - ".toList ++ c.romType ++ " (".toList
      ++ c.kernelBranch ++ [')']
    match progress_bar (PyScalar.str c.progressPercent) with
    | none => (none, w)
    | some bar =>
      (some ('*' :: title ++ '*' :: nl :: nl ::
        "*⏰ Elapsed Time:* `".toList ++ elapsed ++ '`' :: nl ::
        "*📊 Progress:* ".toList ++ bar ++ nl ::
        "*🔧 Stage:* `".toList ++ escape_markdown c.currentStage ++ '`' :: nl ::
        "*🌿 Branch:* `".toList ++ escape_markdown c.kernelBranch ++ '`' :: nl ::
        "*🛠️ Clang:* `".toList ++ escape_markdown c.clang ++ '`' :: nl ::
        "*🔐 KPM:* ".toList
          ++ (if c.kpm then "✅ Enabled".toList else "❌ Disabled".toList) ++ nl ::
        "*👤 By:* `".toList ++ c.githubActor ++ '`' :: nl ::
        "*📦 Workflow:* `".toList ++ c.githubWorkflow ++ '`' :: nl ::
        "*🆔 Run ID:* `".toList ++ runIdOf c ++ '`' :: [nl]), w)

/-- Embedding of `send_message` (`tg_timer_service.py` lines 109-127):
guard, one request, the message id on success; no retry of any kind; a
missing id in the response is the `KeyError` caught by the `except`. -/
def send_message (c : Config) (text : List Char) (w : World) : Option Int × World :=
  if !(truthy c.telegramToken && truthy c.telegramChatId) then
    (none, w.log logNoCreds)
  else
    match w.postTg (Request.sendMessage (chatOf c) text (some markdownMode)) with
    | (none, w) => (none, w.log logSendError)
    | (some r, w) =>
      if r.status = 200 then
        match r.messageId with
        | some mid => (some mid, w)
        | none => (none, w.log logSendError)
      else (none, w)

/-- Embedding of `edit_message` (`tg_timer_service.py` lines 129-145):
one request, `True` exactly on status 200, no retry. -/
def edit_message (c : Config) (mid : Int) (text : List Char) (w : World) :
    Bool × World :=
  if !(truthy c.telegramToken && truthy c.telegramChatId) then (false, w)
  else
    match w.postTg (Request.editMessageText (chatOf c) mid text (some markdownMode)) with
    | (none, w) => (false, w)
    | (some r, w) => (r.status == 200, w)

/-- Embedding of `delete_message` (`tg_timer_service.py` lines 147-158). -/
def delete_message (c : Config) (mid : Int) (w : World) : World :=
  if !(truthy c.telegramToken && truthy c.telegramChatId) then w
  else
    match w.postTg (Request.deleteMessage (chatOf c) mid) with
    | (_, w) => w

/-- `save_message_id` of the timer service lifted to the world (a failed
write is silently ignored). -/
def saveTimerMessageId (mid : Int) (w : World) : World :=
  if w.writeOk then { w with file := save_message_id (pyStrInt mid) w.file true }
  else w

/-- Outcome of one pass of the worker loop body. -/
inductive IterOutcome where
  | next (mid : Int)
  | halt
deriving DecidableEq

/-- One iteration of the `while timer_running` body of `timer_worker`
(`tg_timer_service.py` lines 197-216): rebuild the text and edit; on a
failed edit, send a fresh message and save its id; when that send also
fails, leave the loop; a raised exception inside the body is caught and
the loop continues with the same id. -/
def timer_worker_iter (c : Config) (mid : Int) (w : World) : IterOutcome × World :=
  match build_message c w with
  | (none, w) => (IterOutcome.next mid, w.log logWorkerError)
  | (some msg, w) =>
    match edit_message c mid msg w with
    | (true, w) => (IterOutcome.next mid, w)
    | (false, w) =>
      match send_message c msg w with
      | (some nid, w) => (IterOutcome.next nid, saveTimerMessageId nid w)
      | (none, w) => (IterOutcome.halt, w.log logRecreateFailed)

/-- Embedding of `send_final_message` (`tg_timer_service.py` lines
242-271): delete the live message when a handle is stored, resolve the
start time (the GitHub lookup), then send the terminal summary.  The
`stop_timer` flag concerns only the background thread and is outside the
world model. -/
def send_final_message (c : Config) (status : List Char) (w : World) : World :=
  let w := match load_message_id w.file with
    | some mid => delete_message c mid w
    | none => w
  let titleIcon := if status = "success".toList then "✅".toList else "❌".toList
  let statusText := if status = "success".toList then "Completed Successfully".toList
    else "Failed".toList
  match get_workflow_start_time c w with
  | (start, w) =>
    let elapsed := match start with
      | some t => get_elapsed_time (some t) w.now
      | none => "Unknown".toList
    let finalMsg := '*' :: titleIcon ++ " Build ".toList ++ statusText ++ " - ".toList
      ++ c.romType ++ " (".toList ++ c.kernelBranch ++ ")*".toList ++ nl :: nl ::
      "*⏱️ Total Time:* `".toList ++ elapsed ++ '`' :: nl ::
      "*🌿 Branch:* `".toList ++ escape_markdown c.kernelBranch ++ '`' :: nl ::
      "*🛠️ Clang:* `".toList ++ escape_markdown c.clang ++ '`' :: nl ::
      "*🔐 KPM:* ".toList
        ++ (if c.kpm then "✅ Enabled".toList else "❌ Disabled".toList) ++ nl ::
      "*👤 By:* `".toList ++ c.githubActor ++ '`' :: nl ::
      "*📦 Workflow:* `".toList ++ c.githubWorkflow ++ '`' :: nl :: nl ::
      "*Status:* ".toList ++ statusText ++ [nl]
    match send_message c finalMsg w with
    | (_, w) => w.log logFinalSent

end TgTimer

/-! ### Round-trip lemmas for the decimal renderer and parser -/

lemma digitsRevAux_eq_digits (fuel : Nat) :
    ∀ n, n ≤ fuel → digitsRevAux fuel n = Nat.digits 10 n := by
  induction fuel with
  | zero =>
    intro n hn
    interval_cases n
    simp [digitsRevAux]
  | succ f ih =>
    intro n hn
    cases n with
    | zero => simp [digitsRevAux]
    | succ m =>
      rw [Nat.digits_def' (by norm_num : (1 : ℕ) < 10) (Nat.succ_pos m)]
      simp only [digitsRevAux]
      congr 1
      exact ih _ (by omega)

lemma digitsRev_eq_digits (n : Nat) : digitsRev n = Nat.digits 10 n :=
  digitsRevAux_eq_digits n n le_rfl

lemma digitsRev_lt_ten (n : Nat) : ∀ d ∈ digitsRev n, d < 10 := by
  rw [digitsRev_eq_digits]
  exact fun d hd => Nat.digits_lt_base (by norm_num) hd

lemma digitsRev_ne_nil {n : Nat} (h : n ≠ 0) : digitsRev n ≠ [] := by
  rw [digitsRev_eq_digits]
  exact Nat.digits_ne_nil_iff_ne_zero.mpr h

lemma digitVal_digitChar {d : Nat} (h : d < 10) : digitVal (Nat.digitChar d) = d := by
  interval_cases d <;> decide

lemma isDigit_digitChar {d : Nat} (h : d < 10) : (Nat.digitChar d).isDigit = true := by
  interval_cases d <;> decide

lemma digit_ne {c : Char} (h : c.isDigit = true) {d : Char} (hd : d.isDigit = false) :
    c ≠ d := by
  intro e
  subst e
  rw [h] at hd
  exact Bool.noConfusion hd

lemma isDigit_not_ws {c : Char} (h : c.isDigit = true) : c.isWhitespace = false := by
  revert h
  unfold Char.isDigit Char.isWhitespace
  by_cases h1 : c = ' '
  · subst h1; decide
  by_cases h2 : c = '\t'
  · subst h2; decide
  by_cases h3 : c = '\r'
  · subst h3; decide
  by_cases h4 : c = '\n'
  · subst h4; decide
  intro _
  simp [h1, h2, h3, h4]

lemma pyStrNat_all_digit (n : Nat) : ∀ c ∈ pyStrNat n, c.isDigit = true := by
  intro c hc
  unfold pyStrNat at hc
  split at hc
  · simp at hc
    subst hc
    decide
  · simp only [List.mem_map, List.mem_reverse] at hc
    obtain ⟨d, hd, rfl⟩ := hc
    exact isDigit_digitChar (digitsRev_lt_ten n d hd)

lemma pyStrNat_ne_nil (n : Nat) : pyStrNat n ≠ [] := by
  unfold pyStrNat
  split
  · simp
  · simp only [ne_eq, List.map_eq_nil_iff, List.reverse_eq_nil_iff]
    exact digitsRev_ne_nil (by assumption)

lemma pyStrInt_all_no_ws (i : Int) : ∀ c ∈ pyStrInt i, c.isWhitespace = false := by
  intro c hc
  cases i with
  | ofNat n => exact isDigit_not_ws (pyStrNat_all_digit n c hc)
  | negSucc n =>
    simp only [pyStrInt, List.mem_cons] at hc
    rcases hc with rfl | hc
    · decide
    · exact isDigit_not_ws (pyStrNat_all_digit (n + 1) c hc)

lemma stripChars_eq_self {l : List Char} (h : ∀ c ∈ l, c.isWhitespace = false) :
    stripChars l = l := by
  unfold stripChars
  have h1 : l.dropWhile Char.isWhitespace = l := by
    cases l with
    | nil => rfl
    | cons c rest => simp [List.dropWhile_cons, h c (by simp)]
  rw [h1]
  have h2 : l.reverse.dropWhile Char.isWhitespace = l.reverse := by
    cases hrev : l.reverse with
    | nil => rfl
    | cons c rest =>
      have hc : c.isWhitespace = false := by
        refine h c ?_
        rw [← List.mem_reverse, hrev]
        simp
      simp [List.dropWhile_cons, hc]
  rw [h2, List.reverse_reverse]

lemma digitsBody_of_digits {l : List Char} (h : ∀ c ∈ l, c.isDigit = true) :
    digitsBody l = some l := by
  induction l with
  | nil => rfl
  | cons c rest ih =>
    have hc : c.isDigit = true := h c (by simp)
    have hcne : c ≠ '_' := digit_ne hc (by decide)
    rw [digitsBody.eq_def]
    simp only [hcne, hc, if_false, if_true, ih (fun c' hc' => h c' (by simp [hc']))]
    rfl

lemma foldl_digitChar (L : List Nat) (hL : ∀ d ∈ L, d < 10) :
    ∀ a : Nat, (L.map Nat.digitChar).foldl (fun acc c => acc * 10 + digitVal c) a
      = L.foldl (fun acc d => acc * 10 + d) a := by
  induction L with
  | nil => intro a; rfl
  | cons d L ih =>
    intro a
    simp only [List.map_cons, List.foldl_cons]
    rw [digitVal_digitChar (hL d (by simp))]
    exact ih (fun d' hd' => hL d' (by simp [hd'])) _

lemma foldl_horner (L : List Nat) :
    ∀ a : Nat, L.reverse.foldl (fun acc d => acc * 10 + d) a
      = a * 10 ^ L.length + Nat.ofDigits 10 L := by
  induction L with
  | nil => intro a; simp [Nat.ofDigits]
  | cons d L ih =>
    intro a
    simp only [List.reverse_cons, List.foldl_append, List.foldl_cons, List.foldl_nil]
    rw [ih]
    simp only [Nat.ofDigits_cons, List.length_cons, pow_succ]
    ring

lemma parseDigitRun_pyStrNat (n : Nat) : parseDigitRun (pyStrNat n) = some n := by
  by_cases h0 : n = 0
  · subst h0; decide
  · have hmap : pyStrNat n = (digitsRev n).reverse.map Nat.digitChar := by
      unfold pyStrNat; rw [if_neg h0]
    have hval : (pyStrNat n).foldl (fun a d => a * 10 + digitVal d) 0 = n := by
      rw [hmap, foldl_digitChar _ (fun d hd => digitsRev_lt_ten n d (List.mem_reverse.mp hd)),
        foldl_horner]
      simp [digitsRev_eq_digits, Nat.ofDigits_digits]
    rcases hl : pyStrNat n with _ | ⟨c, rest⟩
    · exact absurd hl (pyStrNat_ne_nil n)
    · have hc : c.isDigit = true := pyStrNat_all_digit n c (by rw [hl]; simp)
      have hbody : digitsBody (c :: rest) = some (c :: rest) := by
        rw [← hl]
        exact digitsBody_of_digits (pyStrNat_all_digit n)
      rw [parseDigitRun.eq_def]
      simp only [hc, if_true, hbody]
      rw [hl] at hval
      simp [hval]

lemma pyInt_pyStrNat (n : Nat) : pyInt (pyStrNat n) = some (n : Int) := by
  unfold pyInt
  rw [stripChars_eq_self (fun c hc => isDigit_not_ws (pyStrNat_all_digit n c hc))]
  rcases hl : pyStrNat n with _ | ⟨c, rest⟩
  · exact absurd hl (pyStrNat_ne_nil n)
  · have hc : c.isDigit = true := pyStrNat_all_digit n c (by rw [hl]; simp)
    rw [pyIntSigned.eq_def]
    simp only [if_neg (digit_ne hc (by decide : ('-' : Char).isDigit = false)),
      if_neg (digit_ne hc (by decide : ('+' : Char).isDigit = false))]
    rw [← hl, parseDigitRun_pyStrNat]
    rfl

lemma pyInt_pyStrInt (i : Int) : pyInt (pyStrInt i) = some i := by
  cases i with
  | ofNat n => exact pyInt_pyStrNat n
  | negSucc n =>
    unfold pyInt
    rw [stripChars_eq_self (pyStrInt_all_no_ws (Int.negSucc n))]
    simp only [pyStrInt]
    rw [pyIntSigned.eq_def]
    simp only [if_pos rfl]
    rw [parseDigitRun_pyStrNat (n + 1)]
    simp [Int.negSucc_eq]

lemma load_save_roundtrip (h : Int) (file : Option (List Char)) :
    load_message_id (save_message_id (pyStrInt h) file true) = some h := by
  simp only [save_message_id, if_pos, load_message_id]
  rw [stripChars_eq_self (pyStrInt_all_no_ws h), pyInt_pyStrInt]

/-! ### Claim C5 and C10 theorems: the store -/

/-- C5: for every integer handle, saving it through the message-handle
store and immediately loading returns the same handle; loading from a
missing, corrupt, or non-numeric record returns `none` (absent) — the
embedded `load_message_id` is a total function, mirroring the source's
`except` clauses that swallow every error. -/
theorem store_roundtrip_and_absent_on_bad_record :
    (∀ (h : Int) (file : Option (List Char)),
        load_message_id (save_message_id (pyStrInt h) file true) = some h)
    ∧ load_message_id none = none
    ∧ (∀ s, pyInt (stripChars s) = none → load_message_id (some s) = none)
    ∧ load_message_id (some "garbage".toList) = none
    ∧ load_message_id (some "12.5".toList) = none
    ∧ load_message_id (some [] ) = none := by
  refine ⟨load_save_roundtrip, rfl, ?_, by decide, by decide, by decide⟩
  intro s hs
  simpa [load_message_id] using hs

/-- Witness for C5 at concrete inputs. -/
theorem store_roundtrip_witness :
    load_message_id (save_message_id (pyStrInt 424242) none true) = some 424242
    ∧ load_message_id (some "not a number".toList) = none :=
  ⟨store_roundtrip_and_absent_on_bad_record.1 424242 none,
   store_roundtrip_and_absent_on_bad_record.2.2.1 "not a number".toList (by decide)⟩

/-- C10: `save_message_id` accepts any value (modelled by the string form
it persists) and never raises — on a write error the store is simply left
as it was; `load_message_id` returns a handle only when the persisted
text parses as a decimal integer, so a non-integer save round-trips to
`none` while an integer save round-trips to the saved handle. -/
theorem store_save_total_load_integer_only :
    (∀ v file, save_message_id v file true = some v)
    ∧ (∀ v file, save_message_id v file false = file)
    ∧ (∀ s file, pyInt (stripChars s) = none →
        load_message_id (save_message_id s file true) = none)
    ∧ (∀ (h : Int) (file : Option (List Char)),
        load_message_id (save_message_id (pyStrInt h) file true) = some h)
    ∧ load_message_id (save_message_id "None".toList none true) = none := by
  refine ⟨fun v file => rfl, fun v file => rfl, ?_, load_save_roundtrip, by decide⟩
  intro s file hs
  simpa [save_message_id, load_message_id] using hs

/-- Witness for C10 at concrete inputs: the string form of the Python
value `None` does not parse back, while an integer handle does. -/
theorem store_save_total_witness :
    load_message_id (save_message_id "None".toList (some "7".toList) true) = none
    ∧ save_message_id "None".toList (some "7".toList) false = some "7".toList :=
  ⟨store_save_total_load_integer_only.2.2.1 "None".toList (some "7".toList) (by decide),
   store_save_total_load_integer_only.2.1 "None".toList (some "7".toList)⟩

/-! ### Claim C2 theorems: the store key -/

/-- C2 counterexample: two distinct build identities (target type,
branch) receive the same store key, because the key is built by plain
underscore interpolation — `("a_b", "c")` and `("a", "b_c")` collide. -/
theorem store_key_collision :
    LIVE_MESSAGE_ID_FILE "a_b".toList "c".toList
      = LIVE_MESSAGE_ID_FILE "a".toList "b_c".toList
    ∧ ("a_b".toList, "c".toList) ≠ ("a".toList, "b_c".toList) := by
  constructor
  · decide
  · decide

/-- C2 amended: the `tg_notify.py` key is a deterministic function of
target type and branch — the two values interpolated verbatim, with no
sanitization — and two identities receive distinct keys exactly when
their underscore-joined forms differ; the timer-service variant instead
uses one fixed path for every identity. -/
theorem store_key_characterization :
    (∀ r b, LIVE_MESSAGE_ID_FILE r b
        = "/tmp/live_message_".toList ++ r ++ '_' :: b ++ ".txt".toList)
    ∧ (∀ r₁ b₁ r₂ b₂, r₁ ++ '_' :: b₁ ≠ r₂ ++ '_' :: b₂ →
        LIVE_MESSAGE_ID_FILE r₁ b₁ ≠ LIVE_MESSAGE_ID_FILE r₂ b₂)
    ∧ TIMER_MSG_ID_FILE = "/tmp/telegram_msg_id.txt".toList := by
  refine ⟨fun r b => rfl, ?_, rfl⟩
  intro r₁ b₁ r₂ b₂ hne heq
  apply hne
  unfold LIVE_MESSAGE_ID_FILE at heq
  have h0 : "/tmp/live_message_".toList ++ (r₁ ++ '_' :: (b₁ ++ ".txt".toList))
      = "/tmp/live_message_".toList ++ (r₂ ++ '_' :: (b₂ ++ ".txt".toList)) := by
    simpa [List.append_assoc] using heq
  have h1 := List.append_cancel_left h0
  have h2 : (r₁ ++ '_' :: b₁) ++ ".txt".toList = (r₂ ++ '_' :: b₂) ++ ".txt".toList := by
    simpa [List.append_assoc] using h1
  exact List.append_cancel_right h2

/-- Witness for C2 amended: identities whose joined forms differ do get
distinct keys. -/
theorem store_key_characterization_witness :
    LIVE_MESSAGE_ID_FILE "miui".toList "main".toList
      ≠ LIVE_MESSAGE_ID_FILE "aosp".toList "main".toList :=
  store_key_characterization.2.1 "miui".toList "main".toList "aosp".toList "main".toList
    (by decide)

/-! ### Escaping lemmas and claim C7 -/

lemma replaceChar_append (a b : List Char) (c : Char) :
    replaceChar (a ++ b) c = replaceChar a c ++ replaceChar b c := by
  simp [replaceChar]

lemma foldl_replaceChar_nil (chars : List Char) : chars.foldl replaceChar [] = [] := by
  induction chars with
  | nil => rfl
  | cons c cs ih => simpa [replaceChar] using ih

lemma foldl_replaceChar_append (chars : List Char) :
    ∀ a b, chars.foldl replaceChar (a ++ b)
      = chars.foldl replaceChar a ++ chars.foldl replaceChar b := by
  induction chars with
  | nil => intro a b; rfl
  | cons c cs ih =>
    intro a b
    simp only [List.foldl_cons, replaceChar_append]
    exact ih _ _

lemma foldl_replaceChar_singleton (chars : List Char) (hnd : chars.Nodup)
    (hbs : '\\' ∉ chars) :
    ∀ x : Char, chars.foldl replaceChar [x] = if x ∈ chars then ['\\', x] else [x] := by
  induction chars with
  | nil => intro x; simp
  | cons c cs ih =>
    intro x
    have hnd' : cs.Nodup := (List.nodup_cons.mp hnd).2
    have hcncs : c ∉ cs := (List.nodup_cons.mp hnd).1
    have hbs' : '\\' ∉ cs := fun h => hbs (List.mem_cons_of_mem _ h)
    simp only [List.foldl_cons]
    by_cases hxc : x = c
    · subst hxc
      have h1 : replaceChar [x] x = ['\\'] ++ [x] := by simp [replaceChar]
      rw [h1, foldl_replaceChar_append, ih hnd' hbs', ih hnd' hbs']
      rw [if_neg hbs', if_neg hcncs]
      simp
    · have h1 : replaceChar [x] c = [x] := by simp [replaceChar, hxc]
      rw [h1, ih hnd' hbs']
      simp [List.mem_cons, hxc]

lemma foldl_replaceChar_eq_escapeSpec (chars : List Char) (hnd : chars.Nodup)
    (hbs : '\\' ∉ chars) :
    ∀ text, chars.foldl replaceChar text = escapeSpec chars text := by
  intro text
  induction text with
  | nil => simp [escapeSpec, foldl_replaceChar_nil]
  | cons x xs ih =>
    have h1 : (x :: xs : List Char) = [x] ++ xs := rfl
    rw [h1, foldl_replaceChar_append, foldl_replaceChar_singleton chars hnd hbs x, ih]
    simp [escapeSpec]

/-- C7: both escape operations are pure functions equal to a single-pass
character map: `escape_markdown_text` backslash-prefixes exactly the six
characters `* ` `` ` `` ` [ ] ( )` and leaves every other character
unchanged, while the strict `escape_markdown` of the timer service does
the same for the full 18-character reserved markup set. -/
theorem escaping_characterization :
    (∀ text, escape_markdown_text text = escapeSpec escape_chars_text text)
    ∧ (∀ text, escape_markdown text = escapeSpec escape_chars_full text)
    ∧ escape_chars_text = ['*', '`', '[', ']', '(', ')']
    ∧ (∀ c : Char, c ∉ escape_chars_text → escape_markdown_text [c] = [c])
    ∧ escape_markdown_text "a*b".toList = "a\\*b".toList
    ∧ escape_markdown "a.b".toList = "a\\.b".toList := by
  have h1 : ∀ text, escape_markdown_text text = escapeSpec escape_chars_text text := by
    intro text
    unfold escape_markdown_text
    split
    · rename_i h
      subst h
      rfl
    · exact foldl_replaceChar_eq_escapeSpec _ (by decide) (by decide) text
  have h2 : ∀ text, escape_markdown text = escapeSpec escape_chars_full text := by
    intro text
    unfold escape_markdown
    split
    · rename_i h
      subst h
      rfl
    · exact foldl_replaceChar_eq_escapeSpec _ (by decide) (by decide) text
  refine ⟨h1, h2, rfl, ?_, by decide, by decide⟩
  intro c hc
  rw [h1]
  simp [escapeSpec, hc]

/-- Witness for C7's conditional component at a concrete character. -/
theorem escaping_characterization_witness :
    escape_markdown_text ['x'] = ['x']
    ∧ escape_markdown_text "hello*world".toList
        = escapeSpec escape_chars_text "hello*world".toList :=
  ⟨escaping_characterization.2.2.2.1 'x' (by decide),
   escaping_characterization.1 "hello*world".toList⟩

/-! ### Progress-bar lemmas and claims C4 and C9 -/

lemma int_tdiv_five (m : Nat) : Int.tdiv (m : Int) 5 = ((m / 5 : Nat) : Int) := rfl

lemma pyStrInt_natCast (n : Nat) : pyStrInt (n : Int) = pyStrNat n := rfl

lemma not_mem_pyStrNat_of_not_digit {c : Char} (hc : c.isDigit = false) (n : Nat) :
    c ∉ pyStrNat n := by
  intro h
  have := pyStrNat_all_digit n c h
  rw [hc] at this
  exact Bool.noConfusion this

lemma count_pyStrNat_glyph (n : Nat) {c : Char} (hc : c.isDigit = false) :
    (pyStrNat n).count c = 0 :=
  List.count_eq_zero.mpr (not_mem_pyStrNat_of_not_digit hc n)

/-- C4: for every integer percent between 0 and 100, given either as a
number or as its decimal string, the rendered bar has `⌊p/5⌋` filled
glyphs, `20 − ⌊p/5⌋` empty glyphs, twenty segments in total, is
bracketed, and is suffixed with the percentage; the timer-service
variant renders the same counts. -/
theorem progress_bar_segments :
    ∀ p : Nat, p ≤ 100 →
      ∃ bar, TgNotify.progress_bar (PyScalar.int (p : Int)) = some bar
        ∧ TgNotify.progress_bar (PyScalar.str (pyStrNat p)) = some bar
        ∧ bar.count '●' = p / 5
        ∧ bar.count '○' = 20 - p / 5
        ∧ bar.count '●' + bar.count '○' = 20
        ∧ (p = 0 → bar.count '●' = 0)
        ∧ (p = 100 → bar.count '●' = 20 ∧ bar.count '○' = 0)
        ∧ (p = 47 → bar.count '●' = 9 ∧ bar.count '○' = 11)
        ∧ bar = '[' :: (List.replicate (p / 5) '●' ++ List.replicate (20 - p / 5) '○')
            ++ ']' :: ' ' :: '(' :: (pyStrNat p ++ ['%', ')'])
        ∧ (∃ tbar, TgTimer.progress_bar (PyScalar.int (p : Int)) = some tbar
            ∧ tbar.count '●' = p / 5 ∧ tbar.count '○' = 20 - p / 5) := by
  intro p hp
  have hdiv : p / 5 ≤ 20 := by omega
  have hf : (Int.tdiv (p : Int) 5).toNat = p / 5 := by
    rw [int_tdiv_five]
    exact Int.toNat_natCast _
  have he : ((20 : Int) - Int.tdiv (p : Int) 5).toNat = 20 - p / 5 := by
    rw [int_tdiv_five]
    omega
  have hnum2 : pyNum (PyScalar.str (pyStrNat p)) = some (p : Int) := pyInt_pyStrNat p
  have hd1 : pyDisplay (PyScalar.int (p : Int)) = pyStrNat p := pyStrInt_natCast p
  have hd2 : pyDisplay (PyScalar.str (pyStrNat p)) = pyStrNat p := rfl
  have hbar : TgNotify.progress_bar (PyScalar.int (p : Int))
      = some ('[' :: (List.replicate (p / 5) '●' ++ List.replicate (20 - p / 5) '○')
        ++ ']' :: ' ' :: '(' :: (pyStrNat p ++ ['%', ')'])) := by
    simp only [TgNotify.progress_bar, pyNum, hf, he, hd1]
  have hbar2 : TgNotify.progress_bar (PyScalar.str (pyStrNat p))
      = some ('[' :: (List.replicate (p / 5) '●' ++ List.replicate (20 - p / 5) '○')
        ++ ']' :: ' ' :: '(' :: (pyStrNat p ++ ['%', ')'])) := by
    simp only [TgNotify.progress_bar, hnum2, hf, he, hd2]
  have htbar : TgTimer.progress_bar (PyScalar.int (p : Int))
      = some ('[' :: (List.replicate (p / 5) '●' ++ List.replicate (20 - p / 5) '○')
        ++ ']' :: ' ' :: (pyStrNat p ++ ['%'])) := by
    simp only [TgTimer.progress_bar, pyNum, hf, he, hd1]
  have hcount1 : ('[' :: (List.replicate (p / 5) '●' ++ List.replicate (20 - p / 5) '○')
      ++ ']' :: ' ' :: '(' :: (pyStrNat p ++ ['%', ')'])).count '●' = p / 5 := by
    simp [List.count_cons, List.count_append, List.count_replicate,
      count_pyStrNat_glyph p (by decide : ('●' : Char).isDigit = false)]
  have hcount2 : ('[' :: (List.replicate (p / 5) '●' ++ List.replicate (20 - p / 5) '○')
      ++ ']' :: ' ' :: '(' :: (pyStrNat p ++ ['%', ')'])).count '○' = 20 - p / 5 := by
    simp [List.count_cons, List.count_append, List.count_replicate,
      count_pyStrNat_glyph p (by decide : ('○' : Char).isDigit = false)]
  have htcount1 : ('[' :: (List.replicate (p / 5) '●' ++ List.replicate (20 - p / 5) '○')
      ++ ']' :: ' ' :: (pyStrNat p ++ ['%'])).count '●' = p / 5 := by
    simp [List.count_cons, List.count_append, List.count_replicate,
      count_pyStrNat_glyph p (by decide : ('●' : Char).isDigit = false)]
  have htcount2 : ('[' :: (List.replicate (p / 5) '●' ++ List.replicate (20 - p / 5) '○')
      ++ ']' :: ' ' :: (pyStrNat p ++ ['%'])).count '○' = 20 - p / 5 := by
    simp [List.count_cons, List.count_append, List.count_replicate,
      count_pyStrNat_glyph p (by decide : ('○' : Char).isDigit = false)]
  refine ⟨_, hbar, hbar2, hcount1, hcount2, by omega, ?_, ?_, ?_, rfl,
    ⟨_, htbar, htcount1, htcount2⟩⟩
  · intro h0
    subst h0
    simpa using hcount1
  · intro h100
    subst h100
    constructor
    · simpa using hcount1
    · simpa using hcount2
  · intro h47
    subst h47
    constructor
    · simpa using hcount1
    · simpa using hcount2

/-- Witness for C4 at percent 47. -/
theorem progress_bar_segments_witness :
    ∃ bar, TgNotify.progress_bar (PyScalar.int (47 : Int)) = some bar
      ∧ TgNotify.progress_bar (PyScalar.str (pyStrNat 47)) = some bar
      ∧ bar.count '●' = 47 / 5
      ∧ bar.count '○' = 20 - 47 / 5
      ∧ bar.count '●' + bar.count '○' = 20
      ∧ (47 = 0 → bar.count '●' = 0)
      ∧ (47 = 100 → bar.count '●' = 20 ∧ bar.count '○' = 0)
      ∧ (47 = 47 → bar.count '●' = 9 ∧ bar.count '○' = 11)
      ∧ bar = '[' :: (List.replicate (47 / 5) '●' ++ List.replicate (20 - 47 / 5) '○')
          ++ ']' :: ' ' :: '(' :: (pyStrNat 47 ++ ['%', ')'])
      ∧ (∃ tbar, TgTimer.progress_bar (PyScalar.int (47 : Int)) = some tbar
          ∧ tbar.count '●' = 47 / 5 ∧ tbar.count '○' = 20 - 47 / 5) :=
  progress_bar_segments 47 (by decide)

/-- C9: the bar is not clamped to its nominal width: whenever
`⌊p/5⌋ > 20` (equivalently `p ≥ 105`) the bar carries `⌊p/5⌋` filled
glyphs and zero empty glyphs, so the total segment count exceeds 20. -/
theorem progress_bar_overflow :
    (∀ p : Nat, 105 ≤ p → 20 < p / 5)
    ∧ (∀ p : Nat, 20 < p / 5 →
        ∃ bar, TgNotify.progress_bar (PyScalar.int (p : Int)) = some bar
          ∧ bar.count '●' = p / 5
          ∧ bar.count '○' = 0
          ∧ 20 < bar.count '●' + bar.count '○') := by
  constructor
  · intro p hp
    omega
  · intro p hp
    have hf : (Int.tdiv (p : Int) 5).toNat = p / 5 := by
      rw [int_tdiv_five]
      exact Int.toNat_natCast _
    have he : ((20 : Int) - Int.tdiv (p : Int) 5).toNat = 0 := by
      rw [int_tdiv_five]
      omega
    have hd1 : pyDisplay (PyScalar.int (p : Int)) = pyStrNat p := pyStrInt_natCast p
    have hbar : TgNotify.progress_bar (PyScalar.int (p : Int))
        = some ('[' :: (List.replicate (p / 5) '●' ++ List.replicate 0 '○')
          ++ ']' :: ' ' :: '(' :: (pyStrNat p ++ ['%', ')'])) := by
      simp only [TgNotify.progress_bar, pyNum, hf, he, hd1]
    refine ⟨_, hbar, ?_, ?_, ?_⟩
    · simp [List.count_cons, List.count_append, List.count_replicate,
        count_pyStrNat_glyph p (by decide : ('●' : Char).isDigit = false)]
    · simp [List.count_cons, List.count_append, List.count_replicate,
        count_pyStrNat_glyph p (by decide : ('○' : Char).isDigit = false)]
    · have h1 : ('[' :: (List.replicate (p / 5) '●' ++ List.replicate 0 '○')
          ++ ']' :: ' ' :: '(' :: (pyStrNat p ++ ['%', ')'])).count '●' = p / 5 := by
        simp [List.count_cons, List.count_append, List.count_replicate,
          count_pyStrNat_glyph p (by decide : ('●' : Char).isDigit = false)]
      rw [h1]
      omega

/-- Witness for C9 at percent 105. -/
theorem progress_bar_overflow_witness :
    ∃ bar, TgNotify.progress_bar (PyScalar.int (105 : Int)) = some bar
      ∧ bar.count '●' = 105 / 5
      ∧ bar.count '○' = 0
      ∧ 20 < bar.count '●' + bar.count '○' :=
  progress_bar_overflow.2 105 (by decide)

/-! ### World bookkeeping lemmas -/

@[simp] lemma World_log_tgResponses (w : World) (l : List Char) :
    (w.log l).tgResponses = w.tgResponses := rfl

@[simp] lemma World_log_ghResponses (w : World) (l : List Char) :
    (w.log l).ghResponses = w.ghResponses := rfl

@[simp] lemma World_log_requests (w : World) (l : List Char) :
    (w.log l).requests = w.requests := rfl

@[simp] lemma World_log_now (w : World) (l : List Char) : (w.log l).now = w.now := rfl

@[simp] lemma World_log_file (w : World) (l : List Char) : (w.log l).file = w.file := rfl

@[simp] lemma World_log_writeOk (w : World) (l : List Char) :
    (w.log l).writeOk = w.writeOk := rfl

@[simp] lemma World_postTg_file (w : World) (req : Request) :
    ((w.postTg req).2).file = w.file := by
  unfold World.postTg
  split <;> rfl

@[simp] lemma World_postTg_writeOk (w : World) (req : Request) :
    ((w.postTg req).2).writeOk = w.writeOk := by
  unfold World.postTg
  split <;> rfl

@[simp] lemma World_postTg_now (w : World) (req : Request) :
    ((w.postTg req).2).now = w.now := by
  unfold World.postTg
  split <;> rfl

@[simp] lemma World_postTg_ghResponses (w : World) (req : Request) :
    ((w.postTg req).2).ghResponses = w.ghResponses := by
  unfold World.postTg
  split <;> rfl

@[simp] lemma World_getGh_file (w : World) (req : Request) :
    ((w.getGh req).2).file = w.file := by
  unfold World.getGh
  split <;> rfl

@[simp] lemma World_getGh_writeOk (w : World) (req : Request) :
    ((w.getGh req).2).writeOk = w.writeOk := by
  unfold World.getGh
  split <;> rfl

@[simp] lemma World_getGh_now (w : World) (req : Request) :
    ((w.getGh req).2).now = w.now := by
  unfold World.getGh
  split <;> rfl

@[simp] lemma World_getGh_tgResponses (w : World) (req : Request) :
    ((w.getGh req).2).tgResponses = w.tgResponses := by
  unfold World.getGh
  split <;> rfl

lemma notify_gwst_world (c : Config) (w : World) :
    (TgNotify.get_workflow_start_time c w).2.tgResponses = w.tgResponses
    ∧ (TgNotify.get_workflow_start_time c w).2.file = w.file
    ∧ (TgNotify.get_workflow_start_time c w).2.writeOk = w.writeOk
    ∧ (TgNotify.get_workflow_start_time c w).2.now = w.now := by
  unfold TgNotify.get_workflow_start_time
  split
  · simp
  · rcases hg : w.getGh (Request.getWorkflowRun (runIdOf c)) with ⟨ro, w1⟩
    have hw1 : w1 = (w.getGh (Request.getWorkflowRun (runIdOf c))).2 := by rw [hg]
    have htg : w1.tgResponses = w.tgResponses := by rw [hw1]; simp
    have hfile : w1.file = w.file := by rw [hw1]; simp
    have hwok : w1.writeOk = w.writeOk := by rw [hw1]; simp
    have hnow : w1.now = w.now := by rw [hw1]; simp
    rcases ro with _ | r
    · simp [htg, hfile, hwok, hnow]
    · dsimp only
      by_cases h200 : r.status = 200
      · rw [if_pos h200]
        rcases hca : r.createdAt with _ | t <;> simp [hca, htg, hfile, hwok, hnow]
      · rw [if_neg h200]
        simp [htg, hfile, hwok, hnow]

lemma notify_live_elapsed_world (c : Config) (w : World) :
    (TgNotify.get_live_elapsed_time c w).2.tgResponses = w.tgResponses
    ∧ (TgNotify.get_live_elapsed_time c w).2.file = w.file
    ∧ (TgNotify.get_live_elapsed_time c w).2.writeOk = w.writeOk := by
  unfold TgNotify.get_live_elapsed_time
  rcases hg : TgNotify.get_workflow_start_time c w with ⟨so, w1⟩
  have hw1 : w1 = (TgNotify.get_workflow_start_time c w).2 := by rw [hg]
  have hfacts := notify_gwst_world c w
  rw [← hw1] at hfacts
  rcases so with _ | t
  · simp [hfacts.1, hfacts.2.1, hfacts.2.2.1]
  · dsimp only
    split <;> simp [hfacts.1, hfacts.2.1, hfacts.2.2.1]

lemma build_live_world (c : Config) (w : World) :
    (TgNotify.build_live_message c w).2.tgResponses = w.tgResponses
    ∧ (TgNotify.build_live_message c w).2.file = w.file
    ∧ (TgNotify.build_live_message c w).2.writeOk = w.writeOk := by
  unfold TgNotify.build_live_message
  rcases hge : TgNotify.get_live_elapsed_time c w with ⟨elapsed, w1⟩
  have hw1 : w1 = (TgNotify.get_live_elapsed_time c w).2 := by rw [hge]
  have hfacts := notify_live_elapsed_world c w
  rw [← hw1] at hfacts
  rcases hpb : TgNotify.progress_bar (PyScalar.str c.progressPercent) with _ | bar <;>
    simp [hpb, hfacts.1, hfacts.2.1, hfacts.2.2]

lemma build_live_some (c : Config) (w : World) (bar : List Char)
    (hbar : TgNotify.progress_bar (PyScalar.str c.progressPercent) = some bar) :
    ∃ msg, (TgNotify.build_live_message c w).1 = some msg := by
  unfold TgNotify.build_live_message
  rcases hge : TgNotify.get_live_elapsed_time c w with ⟨elapsed, w1⟩
  dsimp only
  rw [hbar]
  exact ⟨_, rfl⟩

lemma timer_gwst_world (c : Config) (w : World) :
    (TgTimer.get_workflow_start_time c w).2.tgResponses = w.tgResponses
    ∧ (TgTimer.get_workflow_start_time c w).2.file = w.file
    ∧ (TgTimer.get_workflow_start_time c w).2.writeOk = w.writeOk
    ∧ (TgTimer.get_workflow_start_time c w).2.now = w.now := by
  unfold TgTimer.get_workflow_start_time
  split
  · simp
  · rcases hg : w.getGh (Request.getWorkflowRun (runIdOf c)) with ⟨ro, w1⟩
    have hw1 : w1 = (w.getGh (Request.getWorkflowRun (runIdOf c))).2 := by rw [hg]
    have htg : w1.tgResponses = w.tgResponses := by rw [hw1]; simp
    have hfile : w1.file = w.file := by rw [hw1]; simp
    have hwok : w1.writeOk = w.writeOk := by rw [hw1]; simp
    have hnow : w1.now = w.now := by rw [hw1]; simp
    rcases ro with _ | r
    · simp [htg, hfile, hwok, hnow]
    · dsimp only
      by_cases h200 : r.status = 200
      · rw [if_pos h200]
        rcases hca : r.createdAt with _ | t <;> simp [hca, htg, hfile, hwok, hnow]
      · rw [if_neg h200]
        simp [htg, hfile, hwok, hnow]

lemma timer_build_world (c : Config) (w : World) :
    (TgTimer.build_message c w).2.tgResponses = w.tgResponses
    ∧ (TgTimer.build_message c w).2.file = w.file
    ∧ (TgTimer.build_message c w).2.writeOk = w.writeOk := by
  unfold TgTimer.build_message
  rcases hg : TgTimer.get_workflow_start_time c w with ⟨so, w1⟩
  have hw1 : w1 = (TgTimer.get_workflow_start_time c w).2 := by rw [hg]
  have hfacts := timer_gwst_world c w
  rw [← hw1] at hfacts
  rcases hpb : TgTimer.progress_bar (PyScalar.str c.progressPercent) with _ | bar <;>
    simp [hpb, hfacts.1, hfacts.2.1, hfacts.2.2.1]

lemma timer_build_some (c : Config) (w : World) (bar : List Char)
    (hbar : TgTimer.progress_bar (PyScalar.str c.progressPercent) = some bar) :
    ∃ msg, (TgTimer.build_message c w).1 = some msg := by
  unfold TgTimer.build_message
  rcases hge : TgTimer.get_workflow_start_time c w with ⟨start, w1⟩
  dsimp only
  rw [hbar]
  exact ⟨_, rfl⟩

/-! ### Claim C3: the markup-rejection retry -/

/-- C3 amended: only `send_message` has the markup-rejection retry.  On
a failed send whose body carries the parse-error signature it issues
exactly one retry, with the markup-simplified text and `parse_mode`
removed, and reports the retry's outcome; a non-markup send failure is
reported after a single request; `edit_message` never retries: any
failure, markup rejection included, is reported as `False` after its
single request. -/
theorem markup_retry_send_only :
    ∀ (c : Config) (text : List Char) (pm : Option (List Char)) (w : World)
      (r1 : TgResponse) (rest : List (Option TgResponse)),
      (truthy c.telegramToken && truthy c.telegramChatId) = true →
      w.tgResponses = some r1 :: rest →
      r1.status ≠ 200 →
      (containsSub parseErrSig r1.body = true →
        (TgNotify.send_message c text pm w).2.requests
          = w.requests ++ [Request.sendMessage (chatOf c) text pm,
              Request.sendMessage (chatOf c) (TgNotify.simplify_text text) none]
        ∧ (∀ r2 rest2, rest = some r2 :: rest2 →
            (TgNotify.send_message c text pm w).1
              = if r2.status = 200 then r2.messageId else none)
        ∧ (rest = [] → (TgNotify.send_message c text pm w).1 = none))
      ∧ (containsSub parseErrSig r1.body = false →
        (TgNotify.send_message c text pm w).1 = none
        ∧ (TgNotify.send_message c text pm w).2.requests
            = w.requests ++ [Request.sendMessage (chatOf c) text pm])
      ∧ (∀ mid, (TgNotify.edit_message c mid text pm w).1 = false
        ∧ (TgNotify.edit_message c mid text pm w).2.requests
            = w.requests ++ [Request.editMessageText (chatOf c) mid text pm]) := by
  intro c text pm w r1 rest hcreds hq h200
  refine ⟨?_, ?_, ?_⟩
  · intro hsig
    refine ⟨?_, ?_, ?_⟩
    · unfold TgNotify.send_message
      rw [hcreds]
      rcases rest with _ | ⟨ro, rest2⟩
      · simp [World.postTg, hq, h200, hsig]
      · rcases ro with _ | r2
        · simp [World.postTg, hq, h200, hsig]
        · by_cases h2 : r2.status = 200 <;>
            simp [World.postTg, hq, h200, hsig, h2]
    · intro r2 rest2 hrest
      subst hrest
      unfold TgNotify.send_message
      rw [hcreds]
      by_cases h2 : r2.status = 200 <;> simp [World.postTg, hq, h200, hsig, h2]
    · intro hrest
      subst hrest
      unfold TgNotify.send_message
      rw [hcreds]
      simp [World.postTg, hq, h200, hsig]
  · intro hsig
    unfold TgNotify.send_message
    rw [hcreds]
    constructor <;> simp [World.postTg, hq, h200, hsig]
  · intro mid
    unfold TgNotify.edit_message
    rw [hcreds]
    constructor <;> simp [World.postTg, hq, h200]

/-- The configuration of the concrete scenarios: chat credentials set,
GitHub credentials absent. -/
def cTest : Config :=
  { telegramToken := some "T".toList
    telegramChatId := some "C".toList
    githubToken := none
    githubRunId := none
    githubRepo := "o/r".toList
    githubActor := "a".toList
    githubWorkflow := "wf".toList
    kernelBranch := "main".toList
    kernelSourceUrl := "https://k.example/k.git".toList
    romType := "aosp".toList
    buildStatus := "success".toList
    currentStage := "Build".toList
    progressPercent := "40".toList
    zipPath := [] 
    zipExists := false
    zipSize := 0
    kpm := false
    clang := "c20".toList }

/-- A world whose next Telegram response is a markup-rejection failure. -/
def wEditFail : World :=
  { tgResponses := [some { status := 400, body := parseErrSig, messageId := none }]
    ghResponses := []
    requests := []
    logLines := []
    now := 0
    file := none
    writeOk := true }

/-- C3 counterexample: an `edit` that fails with the markup-rejection
signature in the response performs no retry — exactly one request is
issued where a retry would make two — and the failure is reported. -/
theorem edit_no_markup_retry_counterexample :
    (TgNotify.edit_message cTest 7 "x".toList (some markdownMode) wEditFail).1 = false
    ∧ containsSub parseErrSig
        ((wEditFail.tgResponses.head?.getD none).getD
          { status := 0, body := [], messageId := none }).body = true
    ∧ (TgNotify.edit_message cTest 7 "x".toList
        (some markdownMode) wEditFail).2.requests.length = 1
    ∧ ¬ (TgNotify.edit_message cTest 7 "x".toList
        (some markdownMode) wEditFail).2.requests.length = 2 := by
  refine ⟨by decide, by decide, by decide, by decide⟩

/-- Witness for C3 amended: a send against a markup-rejecting response
issues exactly the original request and one degraded retry. -/
theorem markup_retry_send_only_witness :
    (TgNotify.send_message cTest "*x*".toList (some markdownMode) wEditFail).2.requests
      = wEditFail.requests ++ [Request.sendMessage (chatOf cTest) "*x*".toList
          (some markdownMode),
          Request.sendMessage (chatOf cTest)
            (TgNotify.simplify_text "*x*".toList) none]
    ∧ (TgNotify.send_message cTest "*x*".toList (some markdownMode) wEditFail).1 = none :=
  ⟨(markup_retry_send_only cTest "*x*".toList (some markdownMode) wEditFail
      { status := 400, body := parseErrSig, messageId := none } [] (by decide) rfl
      (by decide)).1 (by decide) |>.1,
   (markup_retry_send_only cTest "*x*".toList (some markdownMode) wEditFail
      { status := 400, body := parseErrSig, messageId := none } [] (by decide) rfl
      (by decide)).1 (by decide) |>.2.2 rfl⟩

/-! ### Claim C8: behaviour under absent credentials -/

/-- C8 amended: with the bot token or chat id absent (falsy), the
`tg_notify` controller performs no remote operation at all for any
phase, logs the absence once, and returns cleanly; the timer-service
channel performs no chat request and returns cleanly, but its end phase
may still issue the build-metadata query: every request it emits beyond
those already recorded is a non-chat request. -/
theorem creds_absent_noop :
    (∀ (c : Config) (action : List Char) (w : World),
      (truthy c.telegramToken && truthy c.telegramChatId) = false →
        TgNotify.tgMain c action w = some (w.log TgNotify.logMainNoCreds))
    ∧ (∀ (c : Config) (text : List Char) (w : World),
      (truthy c.telegramToken && truthy c.telegramChatId) = false →
        TgTimer.send_message c text w = (none, w.log TgTimer.logNoCreds))
    ∧ (∀ (c : Config) (status : List Char) (w : World),
      (truthy c.telegramToken && truthy c.telegramChatId) = false →
        ∀ r ∈ (TgTimer.send_final_message c status w).requests,
          r ∈ w.requests ∨ isChatRequest r = false) := by
  refine ⟨?_, ?_, ?_⟩
  · intro c action w h
    unfold TgNotify.tgMain
    rw [h]
    rfl
  · intro c text w h
    unfold TgTimer.send_message
    rw [h]
    rfl
  · intro c status w h r hr
    unfold TgTimer.send_final_message at hr
    rcases hload : load_message_id w.file with _ | mid <;>
      rw [hload] at hr <;>
      simp only [TgTimer.delete_message, h, Bool.not_false, if_pos] at hr
    case none =>
      rcases hg : TgTimer.get_workflow_start_time c w with ⟨so, w1⟩
      have hw1 : w1 = (TgTimer.get_workflow_start_time c w).2 := by rw [hg]
      have hreq : w1.requests = w.requests
          ∨ w1.requests = w.requests ++ [Request.getWorkflowRun (runIdOf c)] := by
        rw [hw1]
        unfold TgTimer.get_workflow_start_time
        split
        · left
          rfl
        · rcases hgg : w.getGh (Request.getWorkflowRun (runIdOf c)) with ⟨ro, w2⟩
          have hw2 : w2 = (w.getGh (Request.getWorkflowRun (runIdOf c))).2 := by rw [hgg]
          have h2 : w2.requests = w.requests ++ [Request.getWorkflowRun (runIdOf c)] := by
            rw [hw2]
            unfold World.getGh
            split <;> rfl
          rcases ro with _ | resp
          · right
            simpa using h2
          · dsimp only
            by_cases h200 : resp.status = 200
            · rw [if_pos h200]
              rcases hca : resp.createdAt with _ | t <;> simp [hca, h2]
            · rw [if_neg h200]
              simp [h2]
      rw [hg] at hr
      simp only [TgTimer.send_message, h, Bool.not_false, if_pos] at hr
      simp only [World_log_requests] at hr
      rcases hreq with h1 | h1 <;> rw [h1] at hr
      · exact Or.inl hr
      · rcases List.mem_append.mp hr with h2 | h2
        · exact Or.inl h2
        · right
          simp only [List.mem_singleton] at h2
          subst h2
          rfl
    case some =>
      rcases hg : TgTimer.get_workflow_start_time c w with ⟨so, w1⟩
      have hw1 : w1 = (TgTimer.get_workflow_start_time c w).2 := by rw [hg]
      have hreq : w1.requests = w.requests
          ∨ w1.requests = w.requests ++ [Request.getWorkflowRun (runIdOf c)] := by
        rw [hw1]
        unfold TgTimer.get_workflow_start_time
        split
        · left
          rfl
        · rcases hgg : w.getGh (Request.getWorkflowRun (runIdOf c)) with ⟨ro, w2⟩
          have hw2 : w2 = (w.getGh (Request.getWorkflowRun (runIdOf c))).2 := by rw [hgg]
          have h2 : w2.requests = w.requests ++ [Request.getWorkflowRun (runIdOf c)] := by
            rw [hw2]
            unfold World.getGh
            split <;> rfl
          rcases ro with _ | resp
          · right
            simpa using h2
          · dsimp only
            by_cases h200 : resp.status = 200
            · rw [if_pos h200]
              rcases hca : resp.createdAt with _ | t <;> simp [hca, h2]
            · rw [if_neg h200]
              simp [h2]
      rw [hg] at hr
      simp only [TgTimer.send_message, h, Bool.not_false, if_pos] at hr
      simp only [World_log_requests] at hr
      rcases hreq with h1 | h1 <;> rw [h1] at hr
      · exact Or.inl hr
      · rcases List.mem_append.mp hr with h2 | h2
        · exact Or.inl h2
        · right
          simp only [List.mem_singleton] at h2
          subst h2
          rfl

/-- A configuration with the bot token absent but the GitHub credentials
present. -/
def cNoTg : Config :=
  { cTest with telegramToken := none
               githubToken := some "G".toList
               githubRunId := some "1".toList }

/-- A world with one queued successful GitHub response. -/
def wGh : World :=
  { tgResponses := []
    ghResponses := [some { status := 200, createdAt := some 0 }]
    requests := []
    logLines := []
    now := 0
    file := none
    writeOk := true }

/-- C8 counterexample: with the bot token absent but the GitHub
credentials present, the timer-service end phase still issues a remote
build-metadata request — the core does not perform zero remote
operations. -/
theorem creds_absent_remote_counterexample :
    truthy cNoTg.telegramToken = false
    ∧ (TgTimer.send_final_message cNoTg "failure".toList wGh).requests
        = [Request.getWorkflowRun "1".toList]
    ∧ ¬ (TgTimer.send_final_message cNoTg "failure".toList wGh).requests = [] := by
  refine ⟨by decide, by decide, by decide⟩

/-- Witness for C8 amended at a concrete configuration and world. -/
theorem creds_absent_noop_witness :
    TgNotify.tgMain cNoTg "update".toList wGh = some (wGh.log TgNotify.logMainNoCreds)
    ∧ TgTimer.send_message cNoTg "hi".toList wGh = (none, wGh.log TgTimer.logNoCreds) :=
  ⟨creds_absent_noop.1 cNoTg "update".toList wGh (by decide),
   creds_absent_noop.2.1 cNoTg "hi".toList wGh (by decide)⟩

/-! ### Claim C6: elapsed-time formatting -/

lemma int_div_3600 (m : Nat) : (m : Int) / 3600 = ((m / 3600 : Nat) : Int) := by omega

lemma int_mod_3600 (m : Nat) : (m : Int) % 3600 = ((m % 3600 : Nat) : Int) := by omega

lemma int_div_60 (m : Nat) : (m : Int) / 60 = ((m / 60 : Nat) : Int) := by omega

lemma int_mod_60 (m : Nat) : (m : Int) % 60 = ((m % 60 : Nat) : Int) := by omega

/-- C6 amended: for a known start time not after the clock, the elapsed
whole-second count `T = now − start` is decomposed as hours `T / 3600`,
minutes `T % 3600 / 60`, seconds `T % 60`; the `hrs` group is omitted
exactly when the hours are zero, but the `mins` group is omitted only
when the hours and the minutes are both zero — an hour-positive,
minute-zero duration still renders a `0 mins` group. -/
theorem elapsed_time_format :
    ∀ (c : Config) (w : World) (t : Int) (grest : List (Option GhResponse)),
      (truthy c.githubToken && truthy c.githubRunId) = true →
      w.ghResponses = some { status := 200, createdAt := some t } :: grest →
      t ≤ w.now →
      ∃ T : Nat, w.now - t = (T : Int)
        ∧ (0 < T / 3600 →
            (TgNotify.get_elapsed_time c w).1
              = pyStrNat (T / 3600) ++ " hrs ".toList ++ pyStrNat (T % 3600 / 60)
                ++ " mins ".toList ++ pyStrNat (T % 60) ++ " secs".toList)
        ∧ (T / 3600 = 0 → 0 < T % 3600 / 60 →
            (TgNotify.get_elapsed_time c w).1
              = pyStrNat (T % 3600 / 60) ++ " mins ".toList ++ pyStrNat (T % 60)
                ++ " secs".toList)
        ∧ (T / 3600 = 0 → T % 3600 / 60 = 0 →
            (TgNotify.get_elapsed_time c w).1 = pyStrNat (T % 60) ++ " secs".toList) := by
  intro c w t grest hgh hq hle
  have hT : w.now - t = (((w.now - t).toNat : Nat) : Int) := by omega
  set T := (w.now - t).toNat with hTdef
  have heq : (TgNotify.get_elapsed_time c w).1
      = (if 0 < T / 3600 then
          pyStrNat (T / 3600) ++ " hrs ".toList ++ pyStrNat (T % 3600 / 60)
            ++ " mins ".toList ++ pyStrNat (T % 60) ++ " secs".toList
        else if 0 < T % 3600 / 60 then
          pyStrNat (T % 3600 / 60) ++ " mins ".toList ++ pyStrNat (T % 60)
            ++ " secs".toList
        else pyStrNat (T % 60) ++ " secs".toList) := by
    unfold TgNotify.get_elapsed_time TgNotify.get_workflow_start_time
    rw [hgh]
    simp only [Bool.not_true, Bool.false_eq_true, if_false, World.getGh, hq, if_true]
    rw [hT]
    simp only [int_div_3600, int_mod_3600, int_div_60, int_mod_60,
      pyStrInt_natCast, Int.natCast_pos]
    split
    · rfl
    · split <;> rfl
  refine ⟨T, hT, ?_, ?_, ?_⟩
  · intro h1
    rw [heq, if_pos h1]
  · intro h1 h2
    rw [heq, if_neg (by omega), if_pos h2]
  · intro h1 h2
    rw [heq, if_neg (by omega), if_neg (by omega)]

/-- A configuration with the GitHub credentials present. -/
def cGh : Config :=
  { cTest with githubToken := some "G".toList, githubRunId := some "1".toList }

/-- The world of the elapsed-time scenarios: one queued GitHub response
reporting start time 0, clock at `n`. -/
def wElapsed (n : Int) : World := { wGh with now := n }

/-- C6 counterexample: at 3600 elapsed seconds the minutes component is
zero, yet the rendered text is "1 hrs 0 mins 0 secs" — the `mins` group
is not omitted whenever it is zero. -/
theorem elapsed_zero_mins_counterexample :
    (TgNotify.get_elapsed_time cGh (wElapsed 3600)).1 = "1 hrs 0 mins 0 secs".toList
    ∧ containsSub "mins".toList (TgNotify.get_elapsed_time cGh (wElapsed 3600)).1 = true
    ∧ (3600 : Nat) % 3600 / 60 = 0 := by
  refine ⟨by decide, by decide, by decide⟩

/-- Witness for C6 amended: 3661 seconds render as
"1 hrs 1 mins 1 secs" and 0 seconds as "0 secs". -/
theorem elapsed_time_format_witness :
    (TgNotify.get_elapsed_time cGh (wElapsed 3661)).1 = "1 hrs 1 mins 1 secs".toList
    ∧ (TgNotify.get_elapsed_time cGh (wElapsed 0)).1 = "0 secs".toList := by
  constructor
  · obtain ⟨T, hT, h1, _, _⟩ :=
      elapsed_time_format cGh (wElapsed 3661) 0 [] (by decide) rfl (by decide)
    have h0 : (wElapsed 3661).now = 3661 := rfl
    rw [h0] at hT
    have hTv : T = 3661 := by omega
    subst hTv
    rw [h1 (by decide)]
    decide
  · obtain ⟨T, hT, _, _, h3⟩ :=
      elapsed_time_format cGh (wElapsed 0) 0 [] (by decide) rfl (by decide)
    have h0 : (wElapsed 0).now = 0 := rfl
    rw [h0] at hT
    have hTv : T = 0 := by omega
    subst hTv
    rw [h3 (by decide) (by decide)]
    decide

/-! ### Claim C1: the update phase self-heals -/

lemma edit_message_eq_ok (c : Config) (mid : Int) (text : List Char)
    (pm : Option (List Char)) (w : World) (r : TgResponse)
    (rest : List (Option TgResponse))
    (hcreds : (truthy c.telegramToken && truthy c.telegramChatId) = true)
    (hq : w.tgResponses = some r :: rest)
    (h200 : r.status = 200) :
    TgNotify.edit_message c mid text pm w
      = (true, { w with
          tgResponses := rest,
          requests := w.requests
            ++ [Request.editMessageText (chatOf c) mid text pm] }) := by
  unfold TgNotify.edit_message
  rw [hcreds]
  simp [World.postTg, hq, h200]

lemma edit_message_eq_fail (c : Config) (mid : Int) (text : List Char)
    (pm : Option (List Char)) (w : World) (r : TgResponse)
    (rest : List (Option TgResponse))
    (hcreds : (truthy c.telegramToken && truthy c.telegramChatId) = true)
    (hq : w.tgResponses = some r :: rest)
    (h200 : r.status ≠ 200) :
    TgNotify.edit_message c mid text pm w
      = (false, World.log { w with
          tgResponses := rest,
          requests := w.requests
            ++ [Request.editMessageText (chatOf c) mid text pm] }
          TgNotify.logEditFailed) := by
  unfold TgNotify.edit_message
  rw [hcreds]
  simp [World.postTg, hq, h200]

lemma send_message_eq_ok (c : Config) (text : List Char)
    (pm : Option (List Char)) (w : World) (r : TgResponse)
    (rest : List (Option TgResponse))
    (hcreds : (truthy c.telegramToken && truthy c.telegramChatId) = true)
    (hq : w.tgResponses = some r :: rest)
    (h200 : r.status = 200) :
    TgNotify.send_message c text pm w
      = (r.messageId, { w with
          tgResponses := rest,
          requests := w.requests ++ [Request.sendMessage (chatOf c) text pm] }) := by
  unfold TgNotify.send_message
  rw [hcreds]
  simp [World.postTg, hq, h200]

lemma timer_edit_eq_fail (c : Config) (mid : Int) (text : List Char) (w : World)
    (r : TgResponse) (rest : List (Option TgResponse))
    (hcreds : (truthy c.telegramToken && truthy c.telegramChatId) = true)
    (hq : w.tgResponses = some r :: rest)
    (h200 : r.status ≠ 200) :
    TgTimer.edit_message c mid text w
      = (false, { w with
          tgResponses := rest,
          requests := w.requests
            ++ [Request.editMessageText (chatOf c) mid text (some markdownMode)] }) := by
  unfold TgTimer.edit_message
  rw [hcreds]
  simp [World.postTg, hq, h200]

lemma timer_send_eq_ok (c : Config) (text : List Char) (w : World) (r : TgResponse)
    (rest : List (Option TgResponse)) (nid : Int)
    (hcreds : (truthy c.telegramToken && truthy c.telegramChatId) = true)
    (hq : w.tgResponses = some r :: rest)
    (h200 : r.status = 200)
    (hmid : r.messageId = some nid) :
    TgTimer.send_message c text w
      = (some nid, { w with
          tgResponses := rest,
          requests := w.requests
            ++ [Request.sendMessage (chatOf c) text (some markdownMode)] }) := by
  unfold TgTimer.send_message
  rw [hcreds]
  simp [World.postTg, hq, h200, hmid]

lemma mainUpdate_edit_ok (c : Config) (w : World) (bar : List Char) (mid : Int)
    (r : TgResponse) (rest : List (Option TgResponse))
    (hcreds : (truthy c.telegramToken && truthy c.telegramChatId) = true)
    (hbar : TgNotify.progress_bar (PyScalar.str c.progressPercent) = some bar)
    (hload : load_message_id w.file = some mid)
    (hq : w.tgResponses = some r :: rest)
    (h200 : r.status = 200) :
    ∃ w', TgNotify.mainUpdate c w = some w'
      ∧ w'.file = w.file
      ∧ ∃ msg, (TgNotify.build_live_message c w).1 = some msg
          ∧ Request.editMessageText (chatOf c) mid msg (some markdownMode)
              ∈ w'.requests := by
  obtain ⟨msg, hmsg⟩ := build_live_some c w bar hbar
  rcases hb : TgNotify.build_live_message c w with ⟨msgOpt, w1⟩
  have hmo : msgOpt = some msg := by rw [hb] at hmsg; exact hmsg
  subst hmo
  have hfacts := build_live_world c w
  rw [hb] at hfacts
  have htg : w1.tgResponses = w.tgResponses := hfacts.1
  have hfile : w1.file = w.file := hfacts.2.1
  unfold TgNotify.mainUpdate
  simp only [hload, hb]
  rw [edit_message_eq_ok c mid msg (some markdownMode) w1 r rest hcreds
    (htg.trans hq) h200]
  refine ⟨_, rfl, by simpa using hfile, ⟨msg, rfl, by simp⟩⟩

lemma mainUpdate_fallback (c : Config) (w : World) (bar : List Char) (mid : Int)
    (r1 r2 : TgResponse) (rest : List (Option TgResponse)) (nid : Int)
    (hcreds : (truthy c.telegramToken && truthy c.telegramChatId) = true)
    (hbar : TgNotify.progress_bar (PyScalar.str c.progressPercent) = some bar)
    (hload : load_message_id w.file = some mid)
    (hq : w.tgResponses = some r1 :: some r2 :: rest)
    (h1 : r1.status ≠ 200)
    (h2 : r2.status = 200)
    (hmid : r2.messageId = some nid)
    (hwok : w.writeOk = true) :
    ∃ w', TgNotify.mainUpdate c w = some w'
      ∧ w'.file = some (pyStrInt nid)
      ∧ load_message_id w'.file = some nid := by
  obtain ⟨msg, hmsg⟩ := build_live_some c w bar hbar
  rcases hb : TgNotify.build_live_message c w with ⟨msgOpt, w1⟩
  have hmo : msgOpt = some msg := by rw [hb] at hmsg; exact hmsg
  subst hmo
  have hfacts := build_live_world c w
  rw [hb] at hfacts
  have htg : w1.tgResponses = w.tgResponses := hfacts.1
  have hwok1 : w1.writeOk = w.writeOk := hfacts.2.2
  unfold TgNotify.mainUpdate
  simp only [hload, hb]
  rw [edit_message_eq_fail c mid msg (some markdownMode) w1 r1 (some r2 :: rest)
    hcreds (htg.trans hq) h1]
  dsimp only
  rw [send_message_eq_ok c msg (some markdownMode) _ r2 rest hcreds (by simp) h2, hmid]
  dsimp only
  unfold TgNotify.saveLiveMessageId
  rw [if_pos (show _ = true by simp [hwok1, hwok])]
  have hloadnew : load_message_id (some (pyStrInt nid)) = some nid :=
    load_save_roundtrip nid none
  exact ⟨_, rfl, by simp [save_message_id], by simp [save_message_id, hloadnew]⟩

lemma mainUpdate_no_handle (c : Config) (w : World) (bar : List Char)
    (r : TgResponse) (rest : List (Option TgResponse)) (nid : Int)
    (hcreds : (truthy c.telegramToken && truthy c.telegramChatId) = true)
    (hbar : TgNotify.progress_bar (PyScalar.str c.progressPercent) = some bar)
    (hload : load_message_id w.file = none)
    (hq : w.tgResponses = some r :: rest)
    (h200 : r.status = 200)
    (hmid : r.messageId = some nid)
    (hwok : w.writeOk = true) :
    ∃ w', TgNotify.mainUpdate c w = some w'
      ∧ w'.file = some (pyStrInt nid)
      ∧ load_message_id w'.file = some nid := by
  obtain ⟨msg, hmsg⟩ := build_live_some c w bar hbar
  rcases hb : TgNotify.build_live_message c w with ⟨msgOpt, w1⟩
  have hmo : msgOpt = some msg := by rw [hb] at hmsg; exact hmsg
  subst hmo
  have hfacts := build_live_world c w
  rw [hb] at hfacts
  have htg : w1.tgResponses = w.tgResponses := hfacts.1
  have hwok1 : w1.writeOk = w.writeOk := hfacts.2.2
  unfold TgNotify.mainUpdate
  simp only [hload, hb]
  rw [send_message_eq_ok c msg (some markdownMode) w1 r rest hcreds
    (htg.trans hq) h200, hmid]
  dsimp only
  unfold TgNotify.saveLiveMessageId
  rw [if_pos (show _ = true by simp [hwok1, hwok])]
  have hloadnew : load_message_id (some (pyStrInt nid)) = some nid :=
    load_save_roundtrip nid none
  exact ⟨_, rfl, by simp [save_message_id], by simp [save_message_id, hloadnew]⟩

lemma timer_iter_fallback (c : Config) (w : World) (tbar : List Char) (mid : Int)
    (r1 r2 : TgResponse) (rest : List (Option TgResponse)) (nid : Int)
    (hcreds : (truthy c.telegramToken && truthy c.telegramChatId) = true)
    (hbar : TgTimer.progress_bar (PyScalar.str c.progressPercent) = some tbar)
    (hq : w.tgResponses = some r1 :: some r2 :: rest)
    (h1 : r1.status ≠ 200)
    (h2 : r2.status = 200)
    (hmid : r2.messageId = some nid)
    (hwok : w.writeOk = true) :
    ∃ w', TgTimer.timer_worker_iter c mid w = (TgTimer.IterOutcome.next nid, w')
      ∧ w'.file = some (pyStrInt nid)
      ∧ load_message_id w'.file = some nid := by
  obtain ⟨msg, hmsg⟩ := timer_build_some c w tbar hbar
  rcases hb : TgTimer.build_message c w with ⟨msgOpt, w1⟩
  have hmo : msgOpt = some msg := by rw [hb] at hmsg; exact hmsg
  subst hmo
  have hfacts := timer_build_world c w
  rw [hb] at hfacts
  have htg : w1.tgResponses = w.tgResponses := hfacts.1
  have hwok1 : w1.writeOk = w.writeOk := hfacts.2.2
  unfold TgTimer.timer_worker_iter
  simp only [hb]
  rw [timer_edit_eq_fail c mid msg w1 r1 (some r2 :: rest) hcreds (htg.trans hq) h1]
  dsimp only
  rw [timer_send_eq_ok c msg _ r2 rest nid hcreds (by simp) h2 hmid]
  dsimp only
  unfold TgTimer.saveTimerMessageId
  rw [if_pos (show _ = true by simp [hwok1, hwok])]
  have hloadnew : load_message_id (some (pyStrInt nid)) = some nid :=
    load_save_roundtrip nid none
  exact ⟨_, rfl, by simp [save_message_id], by simp [save_message_id, hloadnew]⟩

/-- C1: in the update phase the controller loads the stored handle; with
a handle present and a successful edit, the live message is edited with
the freshly rendered text and the store is unchanged; when the edit
fails, or no handle is present, it falls back to sending, and a
successful send persists the new handle, which the next load — hence the
next update — returns.  The timer-service worker loop body behaves the
same way. -/
theorem update_phase_self_healing :
    ∀ (c : Config) (w : World) (bar : List Char),
      (truthy c.telegramToken && truthy c.telegramChatId) = true →
      TgNotify.progress_bar (PyScalar.str c.progressPercent) = some bar →
      (∀ mid r rest, load_message_id w.file = some mid →
          w.tgResponses = some r :: rest →
          r.status = 200 →
          ∃ w', TgNotify.mainUpdate c w = some w'
            ∧ w'.file = w.file
            ∧ ∃ msg, (TgNotify.build_live_message c w).1 = some msg
                ∧ Request.editMessageText (chatOf c) mid msg (some markdownMode)
                    ∈ w'.requests)
      ∧ (∀ mid r1 r2 rest nid, load_message_id w.file = some mid →
          w.tgResponses = some r1 :: some r2 :: rest →
          r1.status ≠ 200 →
          r2.status = 200 →
          r2.messageId = some nid →
          w.writeOk = true →
          ∃ w', TgNotify.mainUpdate c w = some w'
            ∧ w'.file = some (pyStrInt nid)
            ∧ load_message_id w'.file = some nid)
      ∧ (∀ r rest nid, load_message_id w.file = none →
          w.tgResponses = some r :: rest →
          r.status = 200 →
          r.messageId = some nid →
          w.writeOk = true →
          ∃ w', TgNotify.mainUpdate c w = some w'
            ∧ w'.file = some (pyStrInt nid)
            ∧ load_message_id w'.file = some nid)
      ∧ (∀ tbar mid r1 r2 rest nid,
          TgTimer.progress_bar (PyScalar.str c.progressPercent) = some tbar →
          w.tgResponses = some r1 :: some r2 :: rest →
          r1.status ≠ 200 →
          r2.status = 200 →
          r2.messageId = some nid →
          w.writeOk = true →
          ∃ w', TgTimer.timer_worker_iter c mid w
              = (TgTimer.IterOutcome.next nid, w')
            ∧ w'.file = some (pyStrInt nid)
            ∧ load_message_id w'.file = some nid) := by
  intro c w bar hcreds hbar
  refine ⟨?_, ?_, ?_, ?_⟩
  · intro mid r rest hload hq h200
    exact mainUpdate_edit_ok c w bar mid r rest hcreds hbar hload hq h200
  · intro mid r1 r2 rest nid hload hq h1 h2 hmid hwok
    exact mainUpdate_fallback c w bar mid r1 r2 rest nid hcreds hbar hload hq h1 h2
      hmid hwok
  · intro r rest nid hload hq h200 hmid hwok
    exact mainUpdate_no_handle c w bar r rest nid hcreds hbar hload hq h200 hmid hwok
  · intro tbar mid r1 r2 rest nid htbar hq h1 h2 hmid hwok
    exact timer_iter_fallback c w tbar mid r1 r2 rest nid hcreds htbar hq h1 h2
      hmid hwok

/-- The world of the C1 witness scenario: a stored handle 7, a failing
edit response followed by a successful send carrying message id 99. -/
def wFallback : World :=
  { tgResponses := [some { status := 500, body := [], messageId := none },
      some { status := 200, body := [], messageId := some 99 }]
    ghResponses := []
    requests := []
    logLines := []
    now := 0
    file := some "7".toList
    writeOk := true }

/-- Witness for C1: the fallback case at a concrete scenario — the edit
of handle 7 fails, a new message 99 is sent, and the store then holds 99
for subsequent updates. -/
theorem update_phase_self_healing_witness :
    ∃ w', TgNotify.mainUpdate cTest wFallback = some w'
      ∧ w'.file = some (pyStrInt 99)
      ∧ load_message_id w'.file = some 99 :=
  (update_phase_self_healing cTest wFallback
      ((TgNotify.progress_bar (PyScalar.str cTest.progressPercent)).getD [])
      (by decide) (by decide)).2.1 7
    { status := 500, body := [], messageId := none }
    { status := 200, body := [], messageId := some 99 } [] 99
    (by decide) rfl (by decide) (by decide) (by decide) (by decide)
